import Mathlib

/-!
# Framed register access of the MAX22196 and MAX14906 digital-I/O drivers
# and the attribute layer of the MAX22190

Shallow embedding of `drivers/digital-io/max22196/max22196.c`,
`drivers/digital-io/max14906/max14906.c` and
`drivers/digital-io/max22190/iio_max22190.c`.

* Machine integers are natural numbers; a store into a `uint8_t` and a load
  from a `uint8_t` are `% 256`.
* The SPI platform layer (`no_os_spi_transfer`) is an external collaborator: it is a
  function parameter `T` acting on an abstract bus state.  The communication
  descriptor also keeps the list of messages handed to the platform so far, so
  that "how many exchanges, in which order, with which bytes" can be stated.
* An output parameter `uint32_t *val` is an extra argument (the content before
  the call) and an extra result (the content after the call).
* The headers `max22196.h`, `max14906.h`, `max149x6-base.h` and `no_os_util.h`
  are not among the sources: their register map constants are the fields of
  `max22196_h` / `max14906_h`, the CRC routine is a function parameter.
* Below the attribute layer of the MAX22190, the driver `max22190.c`, its header
  and the IIO library are not among the sources either: the driver functions and
  the library functions are parameters (`max22190_driver`, `iio_lib`), text
  buffers are lists of characters.
-/

/-! ## errno.h -/

/-- The value of `EINVAL` in `errno.h`. -/
def EINVAL : Int := 22

/-! ## no_os_util.h -/

/-- Loop of `no_os_find_first_set_bit`: shift the word right until its lowest
bit is set, counting the shifts; a 32-bit word needs at most 32 rounds. -/
def find_first_set_bit_loop : Nat → Nat → Nat → Nat
  | 0, _, _ => 32
  | fuel + 1, word, first_set_bit =>
    if word = 0 then 32
    else if word % 2 = 1 then first_set_bit
    else find_first_set_bit_loop fuel (word / 2) (first_set_bit + 1)

/-- Modelled from the spec: `no_os_util.h` is missing from the sources; a field mask is
"a bit mask plus bit-offset", the offset being the position of the lowest set
bit of the mask (32 for the empty mask). -/
def no_os_find_first_set_bit (word : Nat) : Nat :=
  find_first_set_bit_loop 32 word 0

/-- Modelled from the spec: `no_os_field_prep(mask, val)` of the missing `no_os_util.h`:
the value moved to the bit-offset of the mask and cut to the mask. -/
def no_os_field_prep (mask val : Nat) : Nat :=
  (val <<< no_os_find_first_set_bit mask) &&& mask

/-- Modelled from the spec: `no_os_field_get(mask, word)` of the missing `no_os_util.h`:
the bits of the word under the mask, moved down to bit 0. -/
def no_os_field_get (mask word : Nat) : Nat :=
  (word &&& mask) >>> no_os_find_first_set_bit mask

/-- Bitwise complement of a `uint32_t`. -/
def not32 (x : Nat) : Nat := 4294967295 - x % 4294967296

/-- Bitwise complement of a `uint8_t` operand after integer promotion, as seen
through a later store into a `uint8_t`. -/
def not8 (x : Nat) : Nat := 255 - x % 256

/-! ## The SPI transport (external collaborator) -/

/-- The fields of `struct no_os_spi_msg` the drivers fill in.  `tx_buff` is the
content of the transmit buffer, that is the `bytes_number` bytes clocked out;
`rx_buff` tells whether a receive buffer is attached. -/
structure no_os_spi_msg where
  tx_buff : List Nat
  rx_buff : Bool
  bytes_number : Nat
  cs_change : Nat
deriving DecidableEq, Repr

/-- What one exchange on the platform yields: the return code, the bytes
clocked in, the next state of the bus. -/
structure spi_result (β : Type) where
  ret : Int
  rx : List Nat
  bus : β

/-- The platform transfer routine behind `no_os_spi_transfer`. -/
abbrev spi_platform (β : Type) : Type := β → no_os_spi_msg → spi_result β

/-- The communication descriptor: the bus behind it and the record of every
message handed to the platform through it, oldest first. -/
structure no_os_spi_desc (β : Type) where
  bus : β
  log : List no_os_spi_msg

/-- Transfer of one message (`no_os_spi_transfer(desc, &xfer, 1)`): exactly one
call of the platform routine, recorded in the log. -/
def no_os_spi_transfer {β : Type} (T : spi_platform β) (c : no_os_spi_desc β)
    (xfer : no_os_spi_msg) : spi_result (no_os_spi_desc β) :=
  let r := T c.bus xfer
  { ret := r.ret, rx := r.rx, bus := { bus := r.bus, log := c.log ++ [xfer] } }

/-! ## The frame buffer -/

/-- The frame buffer `uint8_t buff[FRAME_SIZE + 1]` of a device descriptor:
control byte, data byte, CRC byte. -/
structure frame_buff where
  b0 : Nat
  b1 : Nat
  b2 : Nat
deriving DecidableEq, Repr

/-- The first `n` bytes of the buffer, as the transport sends them. -/
def frame_buff.bytes (b : frame_buff) (n : Nat) : List Nat :=
  [b.b0, b.b1, b.b2].take n

/-- Effect of `memset(buff, 0, n)`. -/
def frame_buff.memset0 (b : frame_buff) (n : Nat) : frame_buff :=
  { b0 := if 0 < n then 0 else b.b0,
    b1 := if 1 < n then 0 else b.b1,
    b2 := if 2 < n then 0 else b.b2 }

/-- Byte `i` of the buffer after an exchange of `n` bytes with the receive
buffer attached: the byte clocked in when the platform delivered one at this
position, the old byte otherwise. -/
def recv_byte (old : Nat) (rx : List Nat) (i n : Nat) : Nat :=
  if i < n then
    match rx.get? i with
    | some v => v % 256
    | none => old
  else old

/-- The buffer after the platform stored the received bytes in place
(`rx_buff = desc->buff`). -/
def frame_buff.recv (b : frame_buff) (rx : List Nat) (n : Nat) : frame_buff :=
  { b0 := recv_byte b.b0 rx 0 n,
    b1 := recv_byte b.b1 rx 1 n,
    b2 := recv_byte b.b2 rx 2 n }

/-! ## max149x6-base.h -/

/-- Type of `max149x6_crc(data, encode)`, which is not among the sources: by the
specification of the CRC engine it is a deterministic function of the control
byte `data[0]`, the data byte `data[1]` and the direction flag. -/
abbrev crc_engine : Type := Nat → Nat → Bool → Nat

/-! ## max22196.h -/

/-- Register map constants of `max22196.h` the driver uses; the header is not
among the sources, so they are parameters of the embedding. -/
structure max22196_h where
  MAX22196_CHANNELS : Nat
  MAX22196_ADDR_MASK : Nat
  MAX22196_REG_ADDR_MASK : Nat
  MAX22196_HITHR_MASK : Nat
  MAX22196_SOURCE_MASK : Nat
  MAX22196_CURR_MASK : Nat
  MAX22196_FLTEN_MASK : Nat
  MAX22196_DELAY_MASK : Nat
  MAX22196_CFG_REG : Nat → Nat
  MAX22196_START_STOP_REG : Nat
  MAX22196_CNT_MASK : Nat → Nat
  MAX22196_CNT_LSB_REG : Nat → Nat
  MAX22196_CNT_MSB_REG : Nat → Nat

/-- Modelled from the spec: `MAX22196_FRAME_SIZE` of the missing `max22196.h`; "frame
length = 2 bytes, +1 if CRC enabled". -/
def MAX22196_FRAME_SIZE : Nat := 2

/-- Modelled from the spec: `MAX22196_RW_MASK` of the missing `max22196.h`; "bit0 = R/W
(1 = write)". -/
def MAX22196_RW_MASK : Nat := 1

/-- The fields of `struct max22196_desc` the register access code touches. -/
structure max22196_desc (β : Type) where
  comm_desc : no_os_spi_desc β
  chip_address : Nat
  buff : frame_buff
  crc_en : Bool

/-- Number of bytes of a MAX22196 frame: `xfer.bytes_number` after the optional
increment. -/
def max22196_bytes_number (crc_en : Bool) : Nat :=
  if crc_en then MAX22196_FRAME_SIZE + 1 else MAX22196_FRAME_SIZE

/-- Control byte stored into `desc->buff[0]`. -/
def max22196_ctrl (H : max22196_h) (chip_address reg rw : Nat) : Nat :=
  (no_os_field_prep H.MAX22196_ADDR_MASK chip_address |||
   no_os_field_prep H.MAX22196_REG_ADDR_MASK reg |||
   no_os_field_prep MAX22196_RW_MASK rw) % 256

/-- The function `max22196_reg_write`. -/
def max22196_reg_write {β : Type} (H : max22196_h) (crc : crc_engine)
    (T : spi_platform β) (desc : max22196_desc β) (reg val : Nat) :
    Int × max22196_desc β :=
  let bytes_number := max22196_bytes_number desc.crc_en
  let buff := { desc.buff with
                b0 := max22196_ctrl H desc.chip_address reg 1, b1 := val % 256 }
  let buff := if desc.crc_en then { buff with b2 := crc buff.b0 buff.b1 true % 256 }
              else buff
  let xfer : no_os_spi_msg :=
    { tx_buff := buff.bytes bytes_number, rx_buff := false,
      bytes_number := bytes_number, cs_change := 1 }
  let r := no_os_spi_transfer T desc.comm_desc xfer
  (r.ret, { desc with comm_desc := r.bus, buff := buff })

/-- The function `max22196_reg_read`; `val` is the content of `*val` before the
call, the second component of the result its content after the call. -/
def max22196_reg_read {β : Type} (H : max22196_h) (crc : crc_engine)
    (T : spi_platform β) (desc : max22196_desc β) (reg val : Nat) :
    Int × Nat × max22196_desc β :=
  let bytes_number := max22196_bytes_number desc.crc_en
  let buff := desc.buff.memset0 bytes_number
  let buff := { buff with b0 := max22196_ctrl H desc.chip_address reg 0 }
  let buff := if desc.crc_en then { buff with b2 := crc buff.b0 buff.b1 true % 256 }
              else buff
  let xfer : no_os_spi_msg :=
    { tx_buff := buff.bytes bytes_number, rx_buff := true,
      bytes_number := bytes_number, cs_change := 1 }
  let r := no_os_spi_transfer T desc.comm_desc xfer
  let buff := buff.recv r.rx bytes_number
  let desc := { desc with comm_desc := r.bus, buff := buff }
  if r.ret ≠ 0 then (r.ret, val, desc)
  else if desc.crc_en ∧ crc buff.b0 buff.b1 false % 256 ≠ buff.b2 then
    (-EINVAL, val, desc)
  else (0, buff.b1 % 256, desc)

/-- The function `max22196_reg_update`. -/
def max22196_reg_update {β : Type} (H : max22196_h) (crc : crc_engine)
    (T : spi_platform β) (desc : max22196_desc β) (reg mask val : Nat) :
    Int × max22196_desc β :=
  let r := max22196_reg_read H crc T desc reg 0
  if r.1 ≠ 0 then (r.1, r.2.2)
  else
    let reg_val := r.2.1 &&& not32 mask
    let reg_val := reg_val ||| (mask &&& val)
    max22196_reg_write H crc T r.2.2 reg reg_val

/-- The channel test `ch > MAX22196_CHANNELS - 1`, an unsigned 32-bit comparison:
the right-hand side is converted to `uint32_t`. -/
def max22196_ch_invalid (H : max22196_h) (ch : Nat) : Bool :=
  decide (ch > (H.MAX22196_CHANNELS + 4294967296 - 1) % 4294967296)

/-- The function `max22196_chan_cfg`. -/
def max22196_chan_cfg {β : Type} (H : max22196_h) (crc : crc_engine)
    (T : spi_platform β) (desc : max22196_desc β)
    (ch hi_thr source curr flt_en delay : Nat) : Int × max22196_desc β :=
  if max22196_ch_invalid H ch then (-EINVAL, desc)
  else
    let cfg_val := no_os_field_prep H.MAX22196_HITHR_MASK hi_thr |||
                   no_os_field_prep H.MAX22196_SOURCE_MASK source |||
                   no_os_field_prep H.MAX22196_CURR_MASK curr |||
                   no_os_field_prep H.MAX22196_FLTEN_MASK flt_en |||
                   no_os_field_prep H.MAX22196_DELAY_MASK delay
    max22196_reg_write H crc T desc (H.MAX22196_CFG_REG ch) cfg_val

/-- The function `max22196_set_chan_cnt`. -/
def max22196_set_chan_cnt {β : Type} (H : max22196_h) (crc : crc_engine)
    (T : spi_platform β) (desc : max22196_desc β)
    (ch cnt_msb_byte cnt_lsb_byte : Nat) : Int × max22196_desc β :=
  if max22196_ch_invalid H ch then (-EINVAL, desc)
  else
    let r1 := max22196_reg_update H crc T desc H.MAX22196_START_STOP_REG
                (H.MAX22196_CNT_MASK ch) (no_os_field_prep (H.MAX22196_CNT_MASK ch) 0)
    if r1.1 ≠ 0 then r1
    else
      let r2 := max22196_reg_write H crc T r1.2 (H.MAX22196_CNT_LSB_REG ch)
                  (cnt_lsb_byte % 256)
      if r2.1 ≠ 0 then r2
      else
        let r3 := max22196_reg_write H crc T r2.2 (H.MAX22196_CNT_MSB_REG ch)
                    (cnt_msb_byte % 256)
        if r3.1 ≠ 0 then r3
        else
          max22196_reg_update H crc T r3.2 H.MAX22196_START_STOP_REG
            (H.MAX22196_CNT_MASK ch) (no_os_field_prep (H.MAX22196_CNT_MASK ch) 1)

/-- The function `max22196_get_chan_cnt`; `cnt_msb_byte` and `cnt_lsb_byte` are
the contents of the two output bytes before the call, the second and third
component of the result their contents after the call. -/
def max22196_get_chan_cnt {β : Type} (H : max22196_h) (crc : crc_engine)
    (T : spi_platform β) (desc : max22196_desc β)
    (ch cnt_msb_byte cnt_lsb_byte : Nat) : Int × Nat × Nat × max22196_desc β :=
  if max22196_ch_invalid H ch then (-EINVAL, cnt_msb_byte, cnt_lsb_byte, desc)
  else
    let r1 := max22196_reg_update H crc T desc H.MAX22196_START_STOP_REG
                (H.MAX22196_CNT_MASK ch) (no_os_field_prep (H.MAX22196_CNT_MASK ch) 0)
    if r1.1 ≠ 0 then (r1.1, cnt_msb_byte, cnt_lsb_byte, r1.2)
    else
      let r2 := max22196_reg_read H crc T r1.2 (H.MAX22196_CNT_LSB_REG ch) cnt_lsb_byte
      if r2.1 ≠ 0 then (r2.1, cnt_msb_byte, r2.2.1, r2.2.2)
      else
        let r3 := max22196_reg_read H crc T r2.2.2 (H.MAX22196_CNT_MSB_REG ch)
                    cnt_msb_byte
        if r3.1 ≠ 0 then (r3.1, r3.2.1, r2.2.1, r3.2.2)
        else
          let r4 := max22196_reg_update H crc T r3.2.2 H.MAX22196_START_STOP_REG
                      (H.MAX22196_CNT_MASK ch)
                      (no_os_field_prep (H.MAX22196_CNT_MASK ch) 1)
          (r4.1, r3.2.1, r2.2.1, r4.2)

/-! ## max14906.h -/

/-- Register map constants of `max14906.h` the driver uses; the header is not
among the sources, so they are parameters of the embedding. -/
structure max14906_h where
  MAX14906_CHANNELS : Nat
  MAX14906_CHIP_ADDR_MASK : Nat
  MAX14906_ADDR_MASK : Nat
  MAX14906_CONFIG_DO_REG : Nat
  MAX14906_SETOUT_REG : Nat
  MAX14906_DO_MASK : Nat → Nat
  MAX14906_CH_DIR_MASK : Nat → Nat
  MAX14906_PUSH_PULL_CLAMP : Nat
  MAX14906_HIGH_Z : Nat

/-- Modelled from the spec: `MAX14906_FRAME_SIZE` of the missing `max14906.h`; a frame is
the control byte and the data byte. -/
def MAX14906_FRAME_SIZE : Nat := 2

/-- Modelled from the spec: `MAX14906_RW_MASK` of the missing `max14906.h`; "bit0 = R/W
(1 = write)". -/
def MAX14906_RW_MASK : Nat := 1

/-- The fields of `struct max14906_desc` the register access code touches. -/
structure max14906_desc (β : Type) where
  comm_desc : no_os_spi_desc β
  chip_address : Nat
  buff : frame_buff

/-- Control byte left in `desc->buff[0]` by the three assignments of
`max14906_reg_write` and `max14906_reg_read`. -/
def max14906_ctrl (H : max14906_h) (chip_address addr rw : Nat) : Nat :=
  let b0 := no_os_field_prep H.MAX14906_CHIP_ADDR_MASK chip_address % 256
  let b0 := (b0 ||| no_os_field_prep H.MAX14906_ADDR_MASK addr) % 256
  (b0 ||| no_os_field_prep MAX14906_RW_MASK rw) % 256

/-- The function `max14906_reg_write`; the argument `val` is converted to
`uint8_t` on entry. -/
def max14906_reg_write {β : Type} (H : max14906_h) (T : spi_platform β)
    (desc : max14906_desc β) (addr val : Nat) : Int × max14906_desc β :=
  let buff := { desc.buff with
                b0 := max14906_ctrl H desc.chip_address addr 1, b1 := val % 256 }
  let xfer : no_os_spi_msg :=
    { tx_buff := buff.bytes MAX14906_FRAME_SIZE, rx_buff := false,
      bytes_number := MAX14906_FRAME_SIZE, cs_change := 1 }
  let r := no_os_spi_transfer T desc.comm_desc xfer
  (r.ret, { desc with comm_desc := r.bus, buff := buff })

/-- The function `max14906_reg_read`; `val` is the content of `*val` before the
call, the second component of the result its content after the call. -/
def max14906_reg_read {β : Type} (H : max14906_h) (T : spi_platform β)
    (desc : max14906_desc β) (addr val : Nat) : Int × Nat × max14906_desc β :=
  let buff := { desc.buff with b0 := max14906_ctrl H desc.chip_address addr 0 }
  let xfer : no_os_spi_msg :=
    { tx_buff := buff.bytes MAX14906_FRAME_SIZE, rx_buff := true,
      bytes_number := MAX14906_FRAME_SIZE, cs_change := 1 }
  let r := no_os_spi_transfer T desc.comm_desc xfer
  let buff := buff.recv r.rx MAX14906_FRAME_SIZE
  let desc := { desc with comm_desc := r.bus, buff := buff }
  if r.ret ≠ 0 then (r.ret, val, desc)
  else (0, buff.b1 % 256, desc)

/-- The function `max14906_reg_update`; `mask` and `val` are converted to
`uint8_t` on entry.  The local `reg_val` is not initialised in the source; it is
read only after a successful `max14906_reg_read` has assigned it. -/
def max14906_reg_update {β : Type} (H : max14906_h) (T : spi_platform β)
    (desc : max14906_desc β) (addr mask val : Nat) : Int × max14906_desc β :=
  let mask := mask % 256
  let val := val % 256
  let r := max14906_reg_read H T desc addr 0
  if r.1 ≠ 0 then (r.1, r.2.2)
  else
    let reg_val := (r.2.1 &&& not8 mask) % 256
    let reg_val := (reg_val ||| (mask &&& val)) % 256
    max14906_reg_write H T r.2.2 addr reg_val

/-- The function `max14906_ch_get`; `val` is the content of `*val`, which the
function never assigns. -/
def max14906_ch_get {β : Type} (H : max14906_h) (_T : spi_platform β)
    (desc : max14906_desc β) (ch val : Nat) : Int × Nat × max14906_desc β :=
  if ch ≥ H.MAX14906_CHANNELS then (-EINVAL, val, desc)
  else (0, val, desc)

/-- The function `max14906_ch_set`. -/
def max14906_ch_set {β : Type} (H : max14906_h) (_T : spi_platform β)
    (desc : max14906_desc β) (ch _val : Nat) : Int × max14906_desc β :=
  if ch ≥ H.MAX14906_CHANNELS then (-EINVAL, desc)
  else (0, desc)

/-- The function `max14906_ch_func`. -/
def max14906_ch_func {β : Type} (H : max14906_h) (T : spi_platform β)
    (desc : max14906_desc β) (ch function : Nat) : Int × max14906_desc β :=
  if function = H.MAX14906_HIGH_Z then
    let r := max14906_reg_update H T desc H.MAX14906_CONFIG_DO_REG
               (H.MAX14906_DO_MASK ch)
               (no_os_field_prep (H.MAX14906_DO_MASK ch) H.MAX14906_PUSH_PULL_CLAMP)
    if r.1 ≠ 0 then r
    else
      max14906_reg_update H T r.2 H.MAX14906_SETOUT_REG (H.MAX14906_CH_DIR_MASK ch)
        (no_os_field_prep (H.MAX14906_CH_DIR_MASK ch) function)
  else
    max14906_reg_update H T desc H.MAX14906_SETOUT_REG (H.MAX14906_CH_DIR_MASK ch)
      (no_os_field_prep (H.MAX14906_CH_DIR_MASK ch) function)

/-! ## Vocabulary of the statements -/

/-- The masked merge in the words of the specification:
`new = (old & ~mask) | (value & mask)` on the eight bits of a register; the
complement of the mask within a byte is `0xFF ^ mask`. -/
def masked_update_spec (old mask value : Nat) : Nat :=
  ((old &&& (255 ^^^ (mask % 256))) ||| (value &&& mask)) % 256

/-- A MAX22196 frame as it appears on the wire: control byte, data byte and, when
CRC is enabled, the CRC of both for the outbound direction. -/
def max22196_frame (crc : crc_engine) (crc_en : Bool) (ctrl data : Nat) (rx : Bool) :
    no_os_spi_msg :=
  { tx_buff := [ctrl, data, crc ctrl data true % 256].take (max22196_bytes_number crc_en),
    rx_buff := rx,
    bytes_number := max22196_bytes_number crc_en,
    cs_change := 1 }

/-- A MAX14906 frame as it appears on the wire: control byte and data byte. -/
def max14906_frame (ctrl data : Nat) (rx : Bool) : no_os_spi_msg :=
  { tx_buff := [ctrl, data], rx_buff := rx, bytes_number := 2, cs_change := 1 }

/-- A register map for evaluation: the fields of the MAX22196 control byte are
bits 7..6 (chip address), bits 5..1 (register address) and bit 0 (R/W). -/
def max22196_h_example : max22196_h :=
  { MAX22196_CHANNELS := 8,
    MAX22196_ADDR_MASK := 0xC0,
    MAX22196_REG_ADDR_MASK := 0x3E,
    MAX22196_HITHR_MASK := 0x80,
    MAX22196_SOURCE_MASK := 0x40,
    MAX22196_CURR_MASK := 0x30,
    MAX22196_FLTEN_MASK := 0x08,
    MAX22196_DELAY_MASK := 0x07,
    MAX22196_CFG_REG := fun x => 0x03 + x,
    MAX22196_START_STOP_REG := 0x0F,
    MAX22196_CNT_MASK := fun x => 1 <<< x,
    MAX22196_CNT_LSB_REG := fun x => 0x10 + 2 * x,
    MAX22196_CNT_MSB_REG := fun x => 0x11 + 2 * x }

/-- A register map for evaluation: the fields of the MAX14906 control byte are
bits 7..6 (chip address), bits 4..1 (register address) and bit 0 (R/W). -/
def max14906_h_example : max14906_h :=
  { MAX14906_CHANNELS := 4,
    MAX14906_CHIP_ADDR_MASK := 0xC0,
    MAX14906_ADDR_MASK := 0x1E,
    MAX14906_CONFIG_DO_REG := 0x0C,
    MAX14906_SETOUT_REG := 0x00,
    MAX14906_DO_MASK := fun x => 0x03 <<< (2 * x),
    MAX14906_CH_DIR_MASK := fun x => 1 <<< (x + 4),
    MAX14906_PUSH_PULL_CLAMP := 2,
    MAX14906_HIGH_Z := 3 }

/-- A CRC routine for evaluation: a five-bit checksum of the two bytes, seeded
differently for the two directions. -/
def crc_example : crc_engine :=
  fun b0 b1 encode => (b0 + 3 * b1 + (if encode then 7 else 11)) % 32

/-- A platform for evaluation: every exchange succeeds and clocks in the three
bytes held in the bus state. -/
def platform_const : spi_platform (List Nat) :=
  fun bus _ => { ret := 0, rx := bus, bus := bus }

/-- A platform for evaluation: every exchange fails with the given code. -/
def platform_fail (code : Int) : spi_platform Unit :=
  fun bus _ => { ret := code, rx := [], bus := bus }

/-- A MAX22196 descriptor for evaluation. -/
def max22196_desc_example {β : Type} (crc_en : Bool) (bus : β) : max22196_desc β :=
  { comm_desc := { bus := bus, log := [] },
    chip_address := 1,
    buff := { b0 := 0xAA, b1 := 0xBB, b2 := 0xCC },
    crc_en := crc_en }

/-- A MAX14906 descriptor for evaluation. -/
def max14906_desc_example {β : Type} (bus : β) : max14906_desc β :=
  { comm_desc := { bus := bus, log := [] },
    chip_address := 2,
    buff := { b0 := 0xAA, b1 := 0xBB, b2 := 0xCC } }

/-- Stored byte of the loopback stub under a key, 0 when nothing was stored. -/
def loopback_lookup (store : List (Nat × Nat)) (key : Nat) : Nat :=
  match store.find? (fun e => e.1 == key) with
  | some e => e.2
  | none => 0

/-- Modelled from the spec: the loopback transport stub of the round-trip property.  A
frame whose control byte has the R/W bit set stores its data byte under the
address fields of the control byte (the control byte without bit 0); a frame
whose R/W bit is clear is answered with the control byte, the byte stored under
the same address fields and, in a three-byte frame, the CRC of both for the
response direction. -/
def loopback (crc : crc_engine) : spi_platform (List (Nat × Nat)) :=
  fun store xfer =>
    let ctrl := xfer.tx_buff.getD 0 0
    let data := xfer.tx_buff.getD 1 0
    if ctrl % 2 = 1 then
      { ret := 0, rx := [], bus := (ctrl / 2, data) :: store }
    else
      let d := loopback_lookup store (ctrl / 2)
      { ret := 0,
        rx := [ctrl, d, crc ctrl d false % 256].take xfer.bytes_number,
        bus := store }

/-- Control byte (frame byte 0) of the message handed to the transport last. -/
def last_ctrl (log : List no_os_spi_msg) : Option Nat :=
  log.getLast?.bind (fun m => m.tx_buff.head?)

/-! ## iio_max22190.c

The IIO layer of the MAX22190 is among the sources; the driver below it
(`max22190.c`), its header and the IIO library are not. -/

/-- The value of `ENOMEM` in `errno.h`. -/
def ENOMEM : Int := 12

/-- Register map constants of `max22190.h` the IIO layer uses; the header is not
among the sources, so they are parameters of the embedding. -/
structure max22190_h where
  MAX22190_CHANNELS : Nat
  MAX22190_FILTER_IN_REG : Nat → Nat
  MAX22190_DELAY_MASK : Nat
  MAX22190_FBP_MASK : Nat

/-- The register access functions of `max22190.c` as the IIO layer calls them, on
a device state `σ`; the file is not among the sources.  `max22190_reg_read`
yields the return code, the value stored into `*val` on success, and the next
device state. -/
structure max22190_driver (σ : Type) where
  max22190_reg_read : σ → Nat → Int × Nat × σ
  max22190_reg_update : σ → Nat → Nat → Nat → Int × σ

/-- The two functions of the IIO library the attribute functions call with
`IIO_VAL_INT`; the library is not among the sources.  `iio_parse_value` yields
the `int32_t` it stores into `*val`, or nothing when it stores nothing;
`iio_format_value` takes the buffer, its length and the `int32_t` to render and
yields its return value and the buffer after the call. -/
structure iio_lib where
  iio_parse_value : List Char → Option Int
  iio_format_value : List Char → Nat → Int → Int × List Char

/-- A `uint32_t` read through an `int32_t *`. -/
def int32_of_uint32 (v : Nat) : Int :=
  if v % 4294967296 < 2147483648 then (v % 4294967296 : Nat)
  else ((v % 4294967296 : Nat) : Int) - 4294967296

/-- An `int32_t` stored through a pointer to a `uint32_t`. -/
def uint32_of_int32 (v : Int) : Nat := (v % 4294967296).toNat

/-- The table `max22190_delay_avail`. -/
def max22190_delay_avail : List Nat := [50, 100, 400, 800, 1800, 3200, 12800, 20000]

/-- The function `max22190_iio_read_filter`. -/
def max22190_iio_read_filter {σ : Type} (H : max22190_h) (D : max22190_driver σ)
    (L : iio_lib) (desc : σ) (buf : List Char) (len ch : Nat) : Int × List Char × σ :=
  let r := D.max22190_reg_read desc (H.MAX22190_FILTER_IN_REG ch)
  if r.1 ≠ 0 then (r.1, buf, r.2.2)
  else
    let val := no_os_field_get H.MAX22190_FBP_MASK r.2.1
    let f := L.iio_format_value buf len (int32_of_uint32 val)
    (f.1, f.2, r.2.2)

/-- The function `max22190_iio_write_filter`; `val` is the content of the
uninitialised local `val`, which stays when `iio_parse_value` stores nothing
(its return value is not looked at). -/
def max22190_iio_write_filter {σ : Type} (H : max22190_h) (D : max22190_driver σ)
    (L : iio_lib) (desc : σ) (buf : List Char) (ch val : Nat) : Int × σ :=
  let val := match L.iio_parse_value buf with
    | some v => uint32_of_int32 v
    | none => val % 4294967296
  if val > 1 then (-EINVAL, desc)
  else
    D.max22190_reg_update desc (H.MAX22190_FILTER_IN_REG ch) H.MAX22190_FBP_MASK val

/-- The function `max22190_iio_read_filter_delay`.  The table is indexed with the
delay field as read; the result is `none` when that index is outside the
table, an access the C code does not guard. -/
def max22190_iio_read_filter_delay {σ : Type} (H : max22190_h) (D : max22190_driver σ)
    (L : iio_lib) (desc : σ) (buf : List Char) (len ch : Nat) :
    Option (Int × List Char × σ) :=
  let r := D.max22190_reg_read desc (H.MAX22190_FILTER_IN_REG ch)
  if r.1 ≠ 0 then some (r.1, buf, r.2.2)
  else
    match max22190_delay_avail.get? (no_os_field_get H.MAX22190_DELAY_MASK r.2.1) with
    | none => none
    | some val =>
      let f := L.iio_format_value buf len (int32_of_uint32 val)
      some (f.1, f.2, r.2.2)

/-- The `for` loop of `max22190_iio_write_filter_delay`, entered with loop
variable `i`: `some i` when the loop is left with the variable at `i` (by `break`
or by its condition), `none` when the body returns `-EINVAL`. -/
def delay_search (val : Nat) : Nat → Nat → Option Nat
  | 0, i => some i
  | fuel + 1, i =>
    if i < max22190_delay_avail.length then
      if val = max22190_delay_avail.getD i 0 then some i
      else if i = max22190_delay_avail.length - 1 then none
      else delay_search val fuel (i + 1)
    else some i

/-- The function `max22190_iio_write_filter_delay`; `val` is the content of the
uninitialised local `val`, which stays when `iio_parse_value` stores nothing. -/
def max22190_iio_write_filter_delay {σ : Type} (H : max22190_h) (D : max22190_driver σ)
    (L : iio_lib) (desc : σ) (buf : List Char) (ch val : Nat) : Int × σ :=
  let val := match L.iio_parse_value buf with
    | some v => uint32_of_int32 v
    | none => val % 4294967296
  match delay_search val (max22190_delay_avail.length + 1) 0 with
  | none => (-EINVAL, desc)
  | some i =>
    D.max22190_reg_update desc (H.MAX22190_FILTER_IN_REG ch) H.MAX22190_DELAY_MASK
      (no_os_field_prep H.MAX22190_DELAY_MASK i)

/-- What `sprintf(dst, "%d ", v)` writes for a `uint32_t` argument: the decimal
text of the argument read as `int`, and a blank. -/
def sprintf_d_blank (v : Nat) : List Char :=
  (toString (int32_of_uint32 v)).data ++ [' ']

/-- The function `max22190_iio_read_filter_available`: each round writes at
offset `length` of the buffer and adds the number of characters written.  The
device, the buffer length and the channel are not used.  The result is the
return value, the text in the buffer and the device. -/
def max22190_iio_read_filter_available {σ : Type} (dev : σ) (buf : List Char)
    (_len _ch : Nat) : Int × List Char × σ :=
  let avail_size := max22190_delay_avail.length
  let st := (List.range avail_size).foldl
    (fun (st : Nat × List Char) i =>
      let s := sprintf_d_blank (max22190_delay_avail.getD i 0)
      (st.1 + s.length, st.2.take st.1 ++ s))
    (0, buf)
  (st.1, st.2, dev)

/-- The fields of `struct iio_channel` that `max22190_iio_setup_channels` sets;
`attributes` names the attribute array the channel points to. -/
structure iio_channel where
  ch_type : Nat
  indexed : Nat
  channel : Nat
  address : Nat
  attributes : Option String
  ch_out : Nat
deriving DecidableEq, Repr

/-- The channel type `IIO_VOLTAGE` of the missing `iio_types.h`, an
enumeration constant kept symbolic. -/
def IIO_VOLTAGE : Nat := 0

/-- An element of the array `no_os_calloc` returns: all fields zero. -/
def iio_channel_zero : iio_channel :=
  { ch_type := 0, indexed := 0, channel := 0, address := 0, attributes := none,
    ch_out := 0 }

/-- The macro `MAX22190_CHANNEL(_addr)`. -/
def MAX22190_CHANNEL (addr : Nat) : iio_channel :=
  { iio_channel_zero with
    ch_type := IIO_VOLTAGE, indexed := 1, channel := addr, address := addr }

/-- The part of `struct iio_device` that `max22190_iio_setup_channels` assigns. -/
structure iio_device where
  channels : List iio_channel
  num_ch : Nat
deriving DecidableEq, Repr

/-- The first loop of `max22190_iio_setup_channels`: the number of enabled
channels. -/
def setup_count (N : Nat) (ch_enabled : List Bool) : Nat :=
  (List.range N).foldl
    (fun enabled_ch i => if ch_enabled.getD i false then enabled_ch + 1 else enabled_ch) 0

/-- The second loop of `max22190_iio_setup_channels`: the array and
`ch_offset`. -/
def setup_fill (N : Nat) (ch_enabled : List Bool) (arr : List iio_channel) :
    List iio_channel × Nat :=
  (List.range N).foldl
    (fun (st : List iio_channel × Nat) i =>
      if ch_enabled.getD i false then
        (st.1.set st.2 { MAX22190_CHANNEL i with
            attributes := some "max22190_attrs", ch_out := 0 },
         st.2 + 1)
      else st)
    (arr, 0)

/-- The function `max22190_iio_setup_channels`; `N` is `MAX22190_CHANNELS`,
`alloc_ok` tells whether `no_os_calloc` returns memory, `dev` is
`*desc->iio_dev`.  The result is the return value and the device after the
call. -/
def max22190_iio_setup_channels (N : Nat) (alloc_ok : Bool) (dev : iio_device)
    (ch_enabled : List Bool) : Int × iio_device :=
  let enabled_ch := setup_count N ch_enabled
  if alloc_ok = false then (-ENOMEM, dev)
  else
    let max22190_iio_channels := List.replicate enabled_ch iio_channel_zero
    let st := setup_fill N ch_enabled max22190_iio_channels
    (0, { channels := st.1, num_ch := enabled_ch })

/-- The state of the register-file stub: the byte held by each register and the
number of transport exchanges made so far. -/
structure regfile where
  regs : Nat → Nat
  exchanges : Nat

/-- Modelled from the spec: `max22190_reg_read` and `max22190_reg_update` of the missing
`max22190.c` over a register-file transport stub.  A read is one exchange and
delivers the register byte; an update "performs `read`, then computes
`new = (old & ~mask) | (value & mask)`, then `write(new)`", two exchanges. -/
def regfile_driver : max22190_driver regfile :=
  { max22190_reg_read := fun d reg =>
      (0, d.regs reg % 256, { d with exchanges := d.exchanges + 1 }),
    max22190_reg_update := fun d reg mask val =>
      (0, { regs := fun r =>
              if r = reg then masked_update_spec (d.regs reg % 256) mask val
              else d.regs r,
            exchanges := d.exchanges + 2 }) }

/-- Value of the decimal digits in a text, most significant first, on top of the
value read so far; nothing when a character is not a digit. -/
def parse_digits : List Char → Nat → Option Nat
  | [], acc => some acc
  | c :: cs, acc =>
    if 48 ≤ c.toNat ∧ c.toNat ≤ 57 then parse_digits cs (acc * 10 + (c.toNat - 48))
    else none

/-- Decimal text with an optional minus sign read as an integer. -/
def parse_decimal (buf : List Char) : Option Int :=
  match buf with
  | [] => none
  | c :: cs =>
    if c = '-' then
      if cs = [] then none else (parse_digits cs 0).map (fun n => - (n : Int))
    else (parse_digits (c :: cs) 0).map (fun n => (n : Int))

/-- An IIO library for evaluation: decimal text in both directions. -/
def iio_lib_decimal : iio_lib :=
  { iio_parse_value := parse_decimal,
    iio_format_value := fun _ _ v => (((toString v).length : Nat), (toString v).data) }

/-- A register map for evaluation: the filter register of channel `x` is
`0x06 + 2 * x`, its delay field bits 2..0 and its bypass flag bit 3. -/
def max22190_h_example : max22190_h :=
  { MAX22190_CHANNELS := 8,
    MAX22190_FILTER_IN_REG := fun x => 0x06 + 2 * x,
    MAX22190_DELAY_MASK := 0x07,
    MAX22190_FBP_MASK := 0x08 }

/-- A register file for evaluation: every register holds `0xA8`. -/
def regfile_example : regfile := { regs := fun _ => 0xA8, exchanges := 0 }

/-- The messages one `max22196_reg_update` hands to the transport: the read
frame of the register and, when the read returned 0, the write frame of the
merged byte. -/
def max22196_update_msgs {β : Type} (H : max22196_h) (crc : crc_engine)
    (T : spi_platform β) (desc : max22196_desc β) (reg mask val : Nat) :
    List no_os_spi_msg :=
  max22196_frame crc desc.crc_en (max22196_ctrl H desc.chip_address reg 0) 0 true ::
    (if (max22196_reg_read H crc T desc reg 0).1 ≠ 0 then []
     else [max22196_frame crc desc.crc_en (max22196_ctrl H desc.chip_address reg 1)
            (masked_update_spec (max22196_reg_read H crc T desc reg 0).2.1 mask val) false])

/-- The messages one `max14906_reg_update` hands to the transport: the read
frame of the register (its data byte is what the buffer held) and, when the
read returned 0, the write frame of the merged byte. -/
def max14906_update_msgs {β : Type} (H : max14906_h) (T : spi_platform β)
    (desc : max14906_desc β) (addr mask val : Nat) : List no_os_spi_msg :=
  max14906_frame (max14906_ctrl H desc.chip_address addr 0) desc.buff.b1 true ::
    (if (max14906_reg_read H T desc addr 0).1 ≠ 0 then []
     else [max14906_frame (max14906_ctrl H desc.chip_address addr 1)
            (masked_update_spec (max14906_reg_read H T desc addr 0).2.1 mask val) false])

/-- A platform for evaluation: the bus state counts the exchanges; exchange
number `n` (from 0) fails with code `-5`, every other one succeeds and clocks
in `0x00, 0x5A, 0x00`. -/
def platform_fail_at (n : Nat) : spi_platform Nat :=
  fun k _ => { ret := if k = n then -5 else 0, rx := [0, 0x5A, 0], bus := k + 1 }

/-- The channel descriptor `max22190_iio_setup_channels` stores for the enabled
index `i`: `MAX22190_CHANNEL(i)` bound to the attribute array `max22190_attrs`. -/
def max22190_channel_of (i : Nat) : iio_channel :=
  { MAX22190_CHANNEL i with attributes := some "max22190_attrs", ch_out := 0 }

/-! ## Bit-level lemmas -/

theorem not32_testBit (m i : Nat) (hi : i < 32) :
    (not32 m).testBit i = !m.testBit i := by
  have h : not32 m = 2 ^ 32 - (m % 2 ^ 32 + 1) := by
    unfold not32; omega
  rw [h, Nat.testBit_two_pow_sub_succ (Nat.mod_lt _ (by norm_num)), Nat.testBit_mod_two_pow]
  simp [hi]

theorem not8_testBit (m i : Nat) (hi : i < 8) :
    (not8 m).testBit i = !m.testBit i := by
  have h : not8 m = 2 ^ 8 - (m % 2 ^ 8 + 1) := by
    unfold not8; omega
  rw [h, Nat.testBit_two_pow_sub_succ (Nat.mod_lt _ (by norm_num)), Nat.testBit_mod_two_pow]
  simp [hi]

theorem masked_update_spec_testBit (old mask value i : Nat) :
    (masked_update_spec old mask value).testBit i =
      (decide (i < 8) && (if mask.testBit i then value.testBit i else old.testBit i)) := by
  unfold masked_update_spec
  have h256 : (256 : Nat) = 2 ^ 8 := by norm_num
  have h255 : (255 : Nat) = 2 ^ 8 - 1 := by norm_num
  rw [h256, Nat.testBit_mod_two_pow, Nat.testBit_or, Nat.testBit_and, Nat.testBit_and,
    Nat.testBit_xor, Nat.testBit_mod_two_pow, h255, Nat.testBit_two_pow_sub_one]
  by_cases hi : i < 8 <;> cases mask.testBit i <;> simp [hi]

/-- The 32-bit read-modify-write of `max22196_reg_update` computes the masked
merge of the specification. -/
theorem update32_eq_spec (old mask val : Nat) :
    ((old &&& not32 mask) ||| (mask &&& val)) % 256 = masked_update_spec old mask val := by
  apply Nat.eq_of_testBit_eq
  intro i
  rw [masked_update_spec_testBit]
  have h256 : (256 : Nat) = 2 ^ 8 := by norm_num
  rw [h256, Nat.testBit_mod_two_pow, Nat.testBit_or, Nat.testBit_and, Nat.testBit_and]
  by_cases hi : i < 8
  · rw [not32_testBit mask i (by omega)]
    cases mask.testBit i <;> simp [hi]
  · simp [hi]

/-- The 8-bit read-modify-write of `max14906_reg_update` computes the masked
merge of the specification. -/
theorem update8_eq_spec (old mask val : Nat) :
    (((old &&& not8 (mask % 256)) % 256) ||| ((mask % 256) &&& (val % 256))) % 256 =
      masked_update_spec old mask val := by
  apply Nat.eq_of_testBit_eq
  intro i
  rw [masked_update_spec_testBit]
  have h256 : (256 : Nat) = 2 ^ 8 := by norm_num
  simp only [h256, Nat.testBit_mod_two_pow, Nat.testBit_or, Nat.testBit_and]
  by_cases hi : i < 8
  · rw [not8_testBit _ i hi, Nat.testBit_mod_two_pow]
    cases mask.testBit i <;> simp [hi]
  · simp [hi]

theorem masked_update_spec_zero (old value : Nat) :
    masked_update_spec old 0 value = old % 256 := by
  apply Nat.eq_of_testBit_eq
  intro i
  rw [masked_update_spec_testBit]
  have h256 : (256 : Nat) = 2 ^ 8 := by norm_num
  rw [h256, Nat.testBit_mod_two_pow]
  simp

theorem masked_update_spec_full (old value : Nat) :
    masked_update_spec old 255 value = value % 256 := by
  apply Nat.eq_of_testBit_eq
  intro i
  rw [masked_update_spec_testBit]
  have h256 : (256 : Nat) = 2 ^ 8 := by norm_num
  have h255 : (255 : Nat) = 2 ^ 8 - 1 := by norm_num
  rw [h256, Nat.testBit_mod_two_pow, h255, Nat.testBit_two_pow_sub_one]
  by_cases hi : i < 8 <;> simp [hi]

/-! ## Lemmas on the control byte -/

theorem field_prep_and_mask (M v : Nat) : no_os_field_prep M v &&& M = no_os_field_prep M v := by
  unfold no_os_field_prep
  rw [Nat.and_assoc, Nat.and_self]

theorem field_prep_even (M v : Nat) (hM : M % 2 = 0) : no_os_field_prep M v % 2 = 0 := by
  unfold no_os_field_prep
  have h := @Nat.and_mod_two_eq_one (v <<< no_os_find_first_set_bit M) M
  have h2 := Nat.mod_two_eq_zero_or_one ((v <<< no_os_find_first_set_bit M) &&& M)
  rcases h2 with h2 | h2
  · exact h2
  · have := (h.mp h2).2
    omega

theorem field_prep_rw_one : no_os_field_prep 1 1 = 1 := by decide

theorem field_prep_rw_zero : no_os_field_prep 1 0 = 0 := by decide

theorem or_one_of_even (y : Nat) (hy : y % 2 = 0) : y ||| 1 = y + 1 := by
  have h := Nat.mul_add_lt_is_or (i := 1) (b := 1) (by norm_num) (y / 2)
  have e : 2 ^ 1 * (y / 2) = y := by omega
  rw [e] at h
  exact h.symm

theorem or_even (a b : Nat) (ha : a % 2 = 0) (hb : b % 2 = 0) : (a ||| b) % 2 = 0 := by
  have h := @Nat.or_mod_two_eq_one a b
  rcases Nat.mod_two_eq_zero_or_one (a ||| b) with h2 | h2
  · exact h2
  · rcases h.mp h2 with h3 | h3 <;> omega

/-- The three assignments to `buff[0]` of the MAX14906 code leave the same byte
as the single assignment of the MAX22196 code. -/
theorem or_mod_256_steps (a r w : Nat) :
    (((a % 256 ||| r) % 256) ||| w) % 256 = (a ||| r ||| w) % 256 := by
  apply Nat.eq_of_testBit_eq
  intro i
  have h256 : (256 : Nat) = 2 ^ 8 := by norm_num
  simp only [h256, Nat.testBit_mod_two_pow, Nat.testBit_or]
  by_cases hi : i < 8 <;> simp [hi]

theorem testBit_of_lt_256 (A i : Nat) (hA : A < 256) (hi : 8 ≤ i) : A.testBit i = false := by
  apply Nat.testBit_lt_two_pow
  calc A < 2 ^ 8 := by norm_num; exact hA
    _ ≤ 2 ^ i := Nat.pow_le_pow_right (by norm_num) hi

theorem testBit_le_one (w i : Nat) (hw : w ≤ 1) (hi : 0 < i) : w.testBit i = false := by
  apply Nat.testBit_lt_two_pow
  calc w < 2 ^ 1 := by norm_num; omega
    _ ≤ 2 ^ i := Nat.pow_le_pow_right (by norm_num) hi

/-- A field of the control byte survives the composition with the other two
fields and the cut to a byte. -/
theorem ctrl_byte_and_mask (A R a r w : Nat) (hA : A < 256) (hAe : A % 2 = 0)
    (hAR : A &&& R = 0) (hw : w ≤ 1) (ha : a &&& A = a) (hr : r &&& R = r) :
    ((a ||| r ||| w) % 256) &&& A = a ∧ ((r ||| a ||| w) % 256) &&& A = a := by
  have key : ∀ i, (decide (i < 8) && (a.testBit i || r.testBit i || w.testBit i)
      && A.testBit i) = a.testBit i := by
    intro i
    have h1 : a.testBit i = (a.testBit i && A.testBit i) := by
      rw [← Nat.testBit_and, ha]
    have h2 : r.testBit i = (r.testBit i && R.testBit i) := by
      rw [← Nat.testBit_and, hr]
    have h3 : (A.testBit i && R.testBit i) = false := by
      rw [← Nat.testBit_and, hAR]; simp
    cases hAi : A.testBit i
    · rw [h1, hAi]; simp
    · rw [hAi] at h3
      simp at h3
      have hr0 : r.testBit i = false := by rw [h2, h3]; simp
      have hi8 : i < 8 := by
        by_contra hc
        have := testBit_of_lt_256 A i hA (by omega)
        rw [this] at hAi; cases hAi
      have hi0 : 0 < i := by
        rcases Nat.eq_zero_or_pos i with h0 | h0
        · subst h0
          rw [Nat.testBit_zero] at hAi
          simp at hAi
          omega
        · exact h0
      rw [hr0, testBit_le_one w i hw hi0]
      simp [hi8]
  have h256 : (256 : Nat) = 2 ^ 8 := by norm_num
  constructor
  · apply Nat.eq_of_testBit_eq
    intro i
    rw [Nat.testBit_and, h256, Nat.testBit_mod_two_pow, Nat.testBit_or, Nat.testBit_or]
    exact key i
  · apply Nat.eq_of_testBit_eq
    intro i
    rw [Nat.testBit_and, h256, Nat.testBit_mod_two_pow, Nat.testBit_or, Nat.testBit_or,
      Bool.or_comm (r.testBit i)]
    exact key i

/-! ## Lemmas on the register access functions -/

theorem bytes_eq_take (b : frame_buff) (n : Nat) : b.bytes n = [b.b0, b.b1, b.b2].take n := rfl

theorem max22196_bytes_number_cases (c : Bool) :
    max22196_bytes_number c = if c then 3 else 2 := by
  cases c <;> rfl

theorem max22196_reg_write_log {β : Type} (H : max22196_h) (crc : crc_engine)
    (T : spi_platform β) (desc : max22196_desc β) (reg val : Nat) :
    (max22196_reg_write H crc T desc reg val).2.comm_desc.log =
      desc.comm_desc.log ++
        [max22196_frame crc desc.crc_en (max22196_ctrl H desc.chip_address reg 1)
          (val % 256) false] := by
  cases hc : desc.crc_en <;>
    simp [max22196_reg_write, no_os_spi_transfer, max22196_frame, frame_buff.bytes, hc,
      max22196_bytes_number, MAX22196_FRAME_SIZE]

theorem max22196_reg_write_ret {β : Type} (H : max22196_h) (crc : crc_engine)
    (T : spi_platform β) (desc : max22196_desc β) (reg val : Nat) :
    (max22196_reg_write H crc T desc reg val).1 =
      (T desc.comm_desc.bus
        (max22196_frame crc desc.crc_en (max22196_ctrl H desc.chip_address reg 1)
          (val % 256) false)).ret := by
  cases hc : desc.crc_en <;>
    simp [max22196_reg_write, no_os_spi_transfer, max22196_frame, frame_buff.bytes, hc,
      max22196_bytes_number, MAX22196_FRAME_SIZE]

theorem max22196_reg_write_mod {β : Type} (H : max22196_h) (crc : crc_engine)
    (T : spi_platform β) (desc : max22196_desc β) (reg val : Nat) :
    max22196_reg_write H crc T desc reg (val % 256) =
      max22196_reg_write H crc T desc reg val := by
  simp [max22196_reg_write]

theorem max22196_reg_write_fields {β : Type} (H : max22196_h) (crc : crc_engine)
    (T : spi_platform β) (desc : max22196_desc β) (reg val : Nat) :
    (max22196_reg_write H crc T desc reg val).2.crc_en = desc.crc_en ∧
    (max22196_reg_write H crc T desc reg val).2.chip_address = desc.chip_address := by
  simp [max22196_reg_write]

theorem max22196_reg_read_log {β : Type} (H : max22196_h) (crc : crc_engine)
    (T : spi_platform β) (desc : max22196_desc β) (reg val : Nat) :
    (max22196_reg_read H crc T desc reg val).2.2.comm_desc.log =
      desc.comm_desc.log ++
        [max22196_frame crc desc.crc_en (max22196_ctrl H desc.chip_address reg 0) 0 true] := by
  obtain ⟨comm, chip, buff, crc_en⟩ := desc
  cases crc_en <;>
    simp only [max22196_reg_read, max22196_bytes_number, MAX22196_FRAME_SIZE,
      Bool.false_eq_true, if_false, if_true, false_and, true_and] <;>
    split_ifs <;>
    simp [no_os_spi_transfer, max22196_frame, frame_buff.bytes, frame_buff.memset0,
      max22196_bytes_number, MAX22196_FRAME_SIZE]

theorem max22196_reg_read_fields {β : Type} (H : max22196_h) (crc : crc_engine)
    (T : spi_platform β) (desc : max22196_desc β) (reg val : Nat) :
    (max22196_reg_read H crc T desc reg val).2.2.crc_en = desc.crc_en ∧
    (max22196_reg_read H crc T desc reg val).2.2.chip_address = desc.chip_address := by
  obtain ⟨comm, chip, buff, crc_en⟩ := desc
  cases crc_en <;>
    simp only [max22196_reg_read, max22196_bytes_number, MAX22196_FRAME_SIZE,
      Bool.false_eq_true, if_false, if_true, false_and, true_and] <;>
    split_ifs <;> simp

theorem max22196_reg_read_val_lt {β : Type} (H : max22196_h) (crc : crc_engine)
    (T : spi_platform β) (desc : max22196_desc β) (reg val : Nat)
    (h : (max22196_reg_read H crc T desc reg val).1 = 0) :
    (max22196_reg_read H crc T desc reg val).2.1 < 256 := by
  obtain ⟨comm, chip, buff, crc_en⟩ := desc
  cases crc_en <;>
    simp only [max22196_reg_read, max22196_bytes_number, MAX22196_FRAME_SIZE,
      Bool.false_eq_true, if_false, if_true, false_and, true_and] at h ⊢ <;>
    split_ifs at h ⊢ <;>
    first
      | exact Nat.mod_lt _ (by norm_num)
      | (exfalso; simp_all [EINVAL])

theorem max22196_reg_update_eq {β : Type} (H : max22196_h) (crc : crc_engine)
    (T : spi_platform β) (desc : max22196_desc β) (reg mask val : Nat)
    (h : (max22196_reg_read H crc T desc reg 0).1 = 0) :
    max22196_reg_update H crc T desc reg mask val =
      max22196_reg_write H crc T (max22196_reg_read H crc T desc reg 0).2.2 reg
        (masked_update_spec (max22196_reg_read H crc T desc reg 0).2.1 mask val) := by
  unfold max22196_reg_update
  simp only [h, ne_eq, not_true_eq_false, if_false]
  rw [← update32_eq_spec, max22196_reg_write_mod]

theorem max14906_reg_write_log {β : Type} (H : max14906_h) (T : spi_platform β)
    (desc : max14906_desc β) (addr val : Nat) :
    (max14906_reg_write H T desc addr val).2.comm_desc.log =
      desc.comm_desc.log ++
        [max14906_frame (max14906_ctrl H desc.chip_address addr 1) (val % 256) false] := by
  simp [max14906_reg_write, no_os_spi_transfer, max14906_frame, frame_buff.bytes,
    MAX14906_FRAME_SIZE]

theorem max14906_reg_write_ret {β : Type} (H : max14906_h) (T : spi_platform β)
    (desc : max14906_desc β) (addr val : Nat) :
    (max14906_reg_write H T desc addr val).1 =
      (T desc.comm_desc.bus
        (max14906_frame (max14906_ctrl H desc.chip_address addr 1) (val % 256) false)).ret := by
  simp [max14906_reg_write, no_os_spi_transfer, max14906_frame, frame_buff.bytes,
    MAX14906_FRAME_SIZE]

theorem max14906_reg_write_mod {β : Type} (H : max14906_h) (T : spi_platform β)
    (desc : max14906_desc β) (addr val : Nat) :
    max14906_reg_write H T desc addr (val % 256) = max14906_reg_write H T desc addr val := by
  simp [max14906_reg_write]

theorem max14906_reg_read_log {β : Type} (H : max14906_h) (T : spi_platform β)
    (desc : max14906_desc β) (addr val : Nat) :
    (max14906_reg_read H T desc addr val).2.2.comm_desc.log =
      desc.comm_desc.log ++
        [max14906_frame (max14906_ctrl H desc.chip_address addr 0) desc.buff.b1 true] := by
  simp only [max14906_reg_read]
  split_ifs <;>
    simp [no_os_spi_transfer, max14906_frame, frame_buff.bytes, MAX14906_FRAME_SIZE]

theorem max14906_reg_read_val_lt {β : Type} (H : max14906_h) (T : spi_platform β)
    (desc : max14906_desc β) (addr val : Nat)
    (h : (max14906_reg_read H T desc addr val).1 = 0) :
    (max14906_reg_read H T desc addr val).2.1 < 256 := by
  simp only [max14906_reg_read] at h ⊢
  split_ifs at h ⊢ <;>
    first
      | exact Nat.mod_lt _ (by norm_num)
      | (exfalso; simp_all)

theorem max14906_reg_update_eq {β : Type} (H : max14906_h) (T : spi_platform β)
    (desc : max14906_desc β) (addr mask val : Nat)
    (h : (max14906_reg_read H T desc addr 0).1 = 0) :
    max14906_reg_update H T desc addr mask val =
      max14906_reg_write H T (max14906_reg_read H T desc addr 0).2.2 addr
        (masked_update_spec (max14906_reg_read H T desc addr 0).2.1 mask val) := by
  unfold max14906_reg_update
  simp only [h, ne_eq, not_true_eq_false, if_false]
  rw [update8_eq_spec]

theorem max14906_reg_read_chip {β : Type} (H : max14906_h) (T : spi_platform β)
    (desc : max14906_desc β) (addr val : Nat) :
    (max14906_reg_read H T desc addr val).2.2.chip_address = desc.chip_address := by
  simp only [max14906_reg_read]
  split_ifs <;> simp

/-! ## C1: masked update is read, merge, write -/

/-- C1. When the register read succeeds, `max22196_reg_update` and
`max14906_reg_update` hand exactly two frames to the transport: first the read
frame of the register, then the write frame of the same register whose data byte
is the masked merge `(old & ~mask) | (val & mask)` cut to eight bits, `old` being
the byte the read returned; the update is the write of that byte in the state
the read left.  With `mask = 0` the byte written is `old`, with `mask = 0xFF` it
is `val & 0xFF`. -/
theorem reg_update_is_read_merge_write {β γ : Type}
    (H : max22196_h) (crc : crc_engine) (T : spi_platform β) (desc : max22196_desc β)
    (reg mask val : Nat)
    (H' : max14906_h) (T' : spi_platform γ) (desc' : max14906_desc γ)
    (addr mask' val' : Nat)
    (hread : (max22196_reg_read H crc T desc reg 0).1 = 0)
    (hread' : (max14906_reg_read H' T' desc' addr 0).1 = 0) :
    (max22196_reg_update H crc T desc reg mask val =
        max22196_reg_write H crc T (max22196_reg_read H crc T desc reg 0).2.2 reg
          (masked_update_spec (max22196_reg_read H crc T desc reg 0).2.1 mask val) ∧
      (max22196_reg_update H crc T desc reg mask val).2.comm_desc.log =
        desc.comm_desc.log ++
          [max22196_frame crc desc.crc_en (max22196_ctrl H desc.chip_address reg 0) 0 true,
           max22196_frame crc desc.crc_en (max22196_ctrl H desc.chip_address reg 1)
             (masked_update_spec (max22196_reg_read H crc T desc reg 0).2.1 mask val)
             false] ∧
      masked_update_spec (max22196_reg_read H crc T desc reg 0).2.1 0 val =
        (max22196_reg_read H crc T desc reg 0).2.1 ∧
      masked_update_spec (max22196_reg_read H crc T desc reg 0).2.1 255 val = val % 256 ∧
      ∀ i, (masked_update_spec (max22196_reg_read H crc T desc reg 0).2.1 mask val).testBit i =
        (decide (i < 8) &&
          (if mask.testBit i then val.testBit i
           else ((max22196_reg_read H crc T desc reg 0).2.1).testBit i))) ∧
    (max14906_reg_update H' T' desc' addr mask' val' =
        max14906_reg_write H' T' (max14906_reg_read H' T' desc' addr 0).2.2 addr
          (masked_update_spec (max14906_reg_read H' T' desc' addr 0).2.1 mask' val') ∧
      (max14906_reg_update H' T' desc' addr mask' val').2.comm_desc.log =
        desc'.comm_desc.log ++
          [max14906_frame (max14906_ctrl H' desc'.chip_address addr 0) desc'.buff.b1 true,
           max14906_frame (max14906_ctrl H' desc'.chip_address addr 1)
             (masked_update_spec (max14906_reg_read H' T' desc' addr 0).2.1 mask' val')
             false] ∧
      masked_update_spec (max14906_reg_read H' T' desc' addr 0).2.1 0 val' =
        (max14906_reg_read H' T' desc' addr 0).2.1 ∧
      masked_update_spec (max14906_reg_read H' T' desc' addr 0).2.1 255 val' = val' % 256 ∧
      ∀ i, (masked_update_spec (max14906_reg_read H' T' desc' addr 0).2.1 mask' val').testBit i =
        (decide (i < 8) &&
          (if mask'.testBit i then val'.testBit i
           else ((max14906_reg_read H' T' desc' addr 0).2.1).testBit i))) := by
  have hlt := max22196_reg_read_val_lt H crc T desc reg 0 hread
  have hlt' := max14906_reg_read_val_lt H' T' desc' addr 0 hread'
  have hspec_lt : ∀ o m v, masked_update_spec o m v % 256 = masked_update_spec o m v := by
    intro o m v
    unfold masked_update_spec
    exact Nat.mod_mod _ _
  refine ⟨⟨max22196_reg_update_eq H crc T desc reg mask val hread, ?_, ?_,
      masked_update_spec_full _ _, masked_update_spec_testBit _ _ _⟩,
    ⟨max14906_reg_update_eq H' T' desc' addr mask' val' hread', ?_, ?_,
      masked_update_spec_full _ _, masked_update_spec_testBit _ _ _⟩⟩
  · rw [max22196_reg_update_eq H crc T desc reg mask val hread, max22196_reg_write_log,
      max22196_reg_read_log, (max22196_reg_read_fields H crc T desc reg 0).1,
      (max22196_reg_read_fields H crc T desc reg 0).2, hspec_lt]
    simp
  · rw [masked_update_spec_zero, Nat.mod_eq_of_lt hlt]
  · rw [max14906_reg_update_eq H' T' desc' addr mask' val' hread', max14906_reg_write_log,
      max14906_reg_read_log, max14906_reg_read_chip, hspec_lt]
    simp
  · rw [masked_update_spec_zero, Nat.mod_eq_of_lt hlt']

/-- Witness of C1: both updates on evaluation descriptors whose platform
answers every exchange with the bytes `0x40, 0x5A, 0x00`; the register holds
`0x5A`, the update of the low nibble to `0x3` writes `0x53`. -/
theorem reg_update_is_read_merge_write_witness :
    ((max22196_reg_read max22196_h_example crc_example platform_const
        (max22196_desc_example false [0x40, 0x5A, 0]) 3 0).1 = 0 ∧
     (max14906_reg_read max14906_h_example platform_const
        (max14906_desc_example [0x40, 0x5A, 0]) 3 0).1 = 0) ∧
    (max22196_reg_update max22196_h_example crc_example platform_const
        (max22196_desc_example false [0x40, 0x5A, 0]) 3 0x0F 0xA3).2.comm_desc.log =
      [max22196_frame crc_example false 0x46 0 true,
       max22196_frame crc_example false 0x47 0x53 false] ∧
    (max14906_reg_update max14906_h_example platform_const
        (max14906_desc_example [0x40, 0x5A, 0]) 3 0x0F 0xA3).2.comm_desc.log =
      [max14906_frame 0x86 0xBB true, max14906_frame 0x87 0x53 false] :=
  have h := reg_update_is_read_merge_write max22196_h_example crc_example platform_const
    (max22196_desc_example false [0x40, 0x5A, 0]) 3 0x0F 0xA3
    max14906_h_example platform_const (max14906_desc_example [0x40, 0x5A, 0]) 3 0x0F 0xA3
    (by decide) (by decide)
  ⟨⟨by decide, by decide⟩, h.1.2.1.trans (by decide), h.2.2.1.trans (by decide)⟩

/-! ## C2: CRC verification of a read response -/

theorem recv_byte_lt (old : Nat) (rx : List Nat) (i n : Nat) (h : old < 256) :
    recv_byte old rx i n < 256 := by
  unfold recv_byte
  split_ifs
  · cases rx.get? i with
    | none => exact h
    | some v => exact Nat.mod_lt _ (by norm_num)
  · exact h

/-- C2. After a successful exchange, with CRC enabled `max22196_reg_read` returns
0 exactly when byte 2 of the response left in the frame buffer equals
`max149x6_crc` of response bytes 0 and 1 for the response direction
(`encode = false`); it then stores response byte 1 into `*val`; otherwise it
returns the non-zero `-EINVAL` and leaves `*val` as it was.  With CRC disabled
the read returns 0 and stores response byte 1 whatever the CRC routine is. -/
theorem max22196_reg_read_crc_check {β : Type}
    (H : max22196_h) (crc : crc_engine) (T : spi_platform β) (desc : max22196_desc β)
    (reg val : Nat)
    (hexch : (T desc.comm_desc.bus
        (max22196_frame crc desc.crc_en (max22196_ctrl H desc.chip_address reg 0) 0 true)).ret
          = 0) :
    (desc.crc_en = true →
      ((max22196_reg_read H crc T desc reg val).1 = 0 ↔
        (max22196_reg_read H crc T desc reg val).2.2.buff.b2 =
          crc (max22196_reg_read H crc T desc reg val).2.2.buff.b0
            (max22196_reg_read H crc T desc reg val).2.2.buff.b1 false % 256) ∧
      ((max22196_reg_read H crc T desc reg val).1 = 0 →
        (max22196_reg_read H crc T desc reg val).2.1 =
          (max22196_reg_read H crc T desc reg val).2.2.buff.b1) ∧
      ((max22196_reg_read H crc T desc reg val).1 ≠ 0 →
        (max22196_reg_read H crc T desc reg val).1 = -EINVAL ∧
        (max22196_reg_read H crc T desc reg val).2.1 = val)) ∧
    (desc.crc_en = false →
      (max22196_reg_read H crc T desc reg val).1 = 0 ∧
      (max22196_reg_read H crc T desc reg val).2.1 =
        (max22196_reg_read H crc T desc reg val).2.2.buff.b1 ∧
      ∀ crc' : crc_engine,
        max22196_reg_read H crc' T desc reg val = max22196_reg_read H crc T desc reg val) := by
  obtain ⟨comm, chip, buff, crc_en⟩ := desc
  constructor
  · intro hc
    simp only at hc
    subst hc
    simp only [max22196_frame, max22196_bytes_number, MAX22196_FRAME_SIZE, if_true,
      List.take] at hexch
    have hb1 : recv_byte 0 (T comm.bus
        { tx_buff := [max22196_ctrl H chip reg 0, 0,
            crc (max22196_ctrl H chip reg 0) 0 true % 256],
          rx_buff := true, bytes_number := 2 + 1, cs_change := 1 }).rx 1 (2 + 1) < 256 :=
      recv_byte_lt _ _ _ _ (by norm_num)
    simp only [max22196_reg_read, max22196_bytes_number, MAX22196_FRAME_SIZE, if_true,
      true_and, no_os_spi_transfer, frame_buff.bytes, frame_buff.memset0, frame_buff.recv,
      List.take, hexch, ne_eq, not_true_eq_false, if_false, Nat.lt_add_one,
      Nat.zero_lt_succ, Nat.one_lt_ofNat, Nat.reduceAdd, Nat.reduceLT]
    simp only [Nat.reduceAdd] at hb1
    split_ifs with h
    · refine ⟨?_, ?_, ?_⟩
      · exact ⟨fun _ => h.symm, fun _ => rfl⟩
      · intro _; exact Nat.mod_eq_of_lt hb1
      · intro h0; exact absurd rfl h0
    · refine ⟨?_, ?_, ?_⟩
      · constructor
        · intro h0; exact absurd h0 (by simp [EINVAL])
        · intro h2; exact absurd h2.symm h
      · intro h0; exact absurd h0 (by simp [EINVAL])
      · intro _; exact ⟨rfl, rfl⟩
  · intro hc
    simp only at hc
    subst hc
    simp only [max22196_frame, max22196_bytes_number, MAX22196_FRAME_SIZE,
      Bool.false_eq_true, if_false, List.take] at hexch
    have hb1 : recv_byte 0 (T comm.bus
        { tx_buff := [max22196_ctrl H chip reg 0, 0],
          rx_buff := true, bytes_number := 2, cs_change := 1 }).rx 1 2 < 256 :=
      recv_byte_lt _ _ _ _ (by norm_num)
    simp only [max22196_reg_read, max22196_bytes_number, MAX22196_FRAME_SIZE,
      Bool.false_eq_true, if_false, false_and,
      no_os_spi_transfer, frame_buff.bytes, frame_buff.memset0, frame_buff.recv,
      List.take, hexch, ne_eq, not_true_eq_false, Nat.lt_add_one,
      Nat.zero_lt_succ, Nat.one_lt_ofNat, Nat.reduceAdd, Nat.reduceLT, if_true]
    refine ⟨trivial, ?_, ?_⟩
    · exact Nat.mod_eq_of_lt hb1
    · intro crc'; trivial

/-- Witness of C2: a CRC-enabled read whose response `0x46, 0x5A, 0x1F` carries
the right check byte is accepted and delivers `0x5A`; the same response with the
check byte `0x1E` is rejected and leaves `*val = 0x77` alone. -/
theorem max22196_reg_read_crc_check_witness :
    (platform_const [0x46, 0x5A, 0x1F]
        (max22196_frame crc_example true (max22196_ctrl max22196_h_example 1 3 0) 0 true)).ret
      = 0 ∧
    ((max22196_reg_read max22196_h_example crc_example platform_const
        (max22196_desc_example true [0x46, 0x5A, 0x1F]) 3 0x77).1 = 0 ∧
     (max22196_reg_read max22196_h_example crc_example platform_const
        (max22196_desc_example true [0x46, 0x5A, 0x1F]) 3 0x77).2.1 = 0x5A) ∧
    ((max22196_reg_read max22196_h_example crc_example platform_const
        (max22196_desc_example true [0x46, 0x5A, 0x1E]) 3 0x77).1 = -EINVAL ∧
     (max22196_reg_read max22196_h_example crc_example platform_const
        (max22196_desc_example true [0x46, 0x5A, 0x1E]) 3 0x77).2.1 = 0x77) :=
  have good := (max22196_reg_read_crc_check max22196_h_example crc_example platform_const
    (max22196_desc_example true [0x46, 0x5A, 0x1F]) 3 0x77 (by decide)).1 rfl
  have bad := (max22196_reg_read_crc_check max22196_h_example crc_example platform_const
    (max22196_desc_example true [0x46, 0x5A, 0x1E]) 3 0x77 (by decide)).1 rfl
  have hgood := good.1.mpr (by decide)
  have hbad : (max22196_reg_read max22196_h_example crc_example platform_const
      (max22196_desc_example true [0x46, 0x5A, 0x1E]) 3 0x77).1 ≠ 0 :=
    fun h0 => absurd (bad.1.mp h0) (by decide)
  ⟨by decide, ⟨hgood, (good.2.1 hgood).trans (by decide)⟩, bad.2.2 hbad⟩

/-! ## C4: round trip through the loopback stub -/

theorem max22196_ctrl_rw (H : max22196_h) (chip reg : Nat)
    (hA : H.MAX22196_ADDR_MASK % 2 = 0) (hR : H.MAX22196_REG_ADDR_MASK % 2 = 0) :
    max22196_ctrl H chip reg 0 % 2 = 0 ∧
    max22196_ctrl H chip reg 1 = max22196_ctrl H chip reg 0 + 1 ∧
    max22196_ctrl H chip reg 0 < 256 := by
  have hY := or_even _ _ (field_prep_even _ chip hA) (field_prep_even _ reg hR)
  unfold max22196_ctrl MAX22196_RW_MASK
  rw [field_prep_rw_one, field_prep_rw_zero, Nat.or_zero, or_one_of_even _ hY]
  omega

theorem max14906_ctrl_eq (H : max14906_h) (chip addr rw : Nat) :
    max14906_ctrl H chip addr rw =
      (no_os_field_prep H.MAX14906_CHIP_ADDR_MASK chip |||
       no_os_field_prep H.MAX14906_ADDR_MASK addr |||
       no_os_field_prep MAX14906_RW_MASK rw) % 256 := by
  unfold max14906_ctrl
  exact or_mod_256_steps _ _ _

theorem max14906_ctrl_rw (H : max14906_h) (chip addr : Nat)
    (hA : H.MAX14906_CHIP_ADDR_MASK % 2 = 0) (hR : H.MAX14906_ADDR_MASK % 2 = 0) :
    max14906_ctrl H chip addr 0 % 2 = 0 ∧
    max14906_ctrl H chip addr 1 = max14906_ctrl H chip addr 0 + 1 ∧
    max14906_ctrl H chip addr 0 < 256 := by
  have hY := or_even _ _ (field_prep_even _ chip hA) (field_prep_even _ addr hR)
  rw [max14906_ctrl_eq, max14906_ctrl_eq]
  unfold MAX14906_RW_MASK
  rw [field_prep_rw_one, field_prep_rw_zero, Nat.or_zero, or_one_of_even _ hY]
  omega

theorem max22196_loopback_round_trip (H : max22196_h) (crc : crc_engine)
    (desc : max22196_desc (List (Nat × Nat))) (reg d v : Nat)
    (hA : H.MAX22196_ADDR_MASK % 2 = 0) (hR : H.MAX22196_REG_ADDR_MASK % 2 = 0)
    (hd : d < 256) :
    (max22196_reg_write H crc (loopback crc) desc reg d).1 = 0 ∧
    (max22196_reg_read H crc (loopback crc)
      (max22196_reg_write H crc (loopback crc) desc reg d).2 reg v).1 = 0 ∧
    (max22196_reg_read H crc (loopback crc)
      (max22196_reg_write H crc (loopback crc) desc reg d).2 reg v).2.1 = d := by
  obtain ⟨h0, h1, hlt⟩ := max22196_ctrl_rw H desc.chip_address reg hA hR
  obtain ⟨comm, chip, buff, crc_en⟩ := desc
  simp only at h0 h1 hlt
  have e1 : (max22196_ctrl H chip reg 0 + 1) % 2 = 1 := by omega
  have e2 : (max22196_ctrl H chip reg 0 + 1) / 2 = max22196_ctrl H chip reg 0 / 2 := by omega
  have e3 : ¬ (max22196_ctrl H chip reg 0 % 2 = 1) := by omega
  have e4 : max22196_ctrl H chip reg 0 % 256 = max22196_ctrl H chip reg 0 :=
    Nat.mod_eq_of_lt hlt
  have e5 : d % 256 = d := Nat.mod_eq_of_lt hd
  cases crc_en <;>
    simp [max22196_reg_write, max22196_reg_read, max22196_bytes_number, MAX22196_FRAME_SIZE,
      no_os_spi_transfer, loopback, loopback_lookup, frame_buff.bytes, frame_buff.memset0,
      frame_buff.recv, recv_byte, h1, e1, e2, e3, e4, e5]

theorem max14906_loopback_round_trip (H : max14906_h) (crc : crc_engine)
    (desc : max14906_desc (List (Nat × Nat))) (addr d v : Nat)
    (hA : H.MAX14906_CHIP_ADDR_MASK % 2 = 0) (hR : H.MAX14906_ADDR_MASK % 2 = 0)
    (hd : d < 256) :
    (max14906_reg_write H (loopback crc) desc addr d).1 = 0 ∧
    (max14906_reg_read H (loopback crc)
      (max14906_reg_write H (loopback crc) desc addr d).2 addr v).1 = 0 ∧
    (max14906_reg_read H (loopback crc)
      (max14906_reg_write H (loopback crc) desc addr d).2 addr v).2.1 = d := by
  obtain ⟨h0, h1, hlt⟩ := max14906_ctrl_rw H desc.chip_address addr hA hR
  obtain ⟨comm, chip, buff⟩ := desc
  simp only at h0 h1 hlt
  have e1 : (max14906_ctrl H chip addr 0 + 1) % 2 = 1 := by omega
  have e2 : (max14906_ctrl H chip addr 0 + 1) / 2 = max14906_ctrl H chip addr 0 / 2 := by omega
  have e3 : ¬ (max14906_ctrl H chip addr 0 % 2 = 1) := by omega
  have e5 : d % 256 = d := Nat.mod_eq_of_lt hd
  simp [max14906_reg_write, max14906_reg_read, MAX14906_FRAME_SIZE,
    no_os_spi_transfer, loopback, loopback_lookup, frame_buff.bytes,
    frame_buff.recv, recv_byte, h1, e1, e2, e3, e5]

/-- C4. Over the loopback stub, for every register address and every data byte
`d` in 0..255, `max22196_reg_write` followed by `max22196_reg_read` of the same
register returns 0 with `*val = d`, with CRC enabled or not; likewise
`max14906_reg_write` followed by `max14906_reg_read`.  The address masks of the
control byte leave bit 0 to the R/W field. -/
theorem loopback_round_trip (H : max22196_h) (H' : max14906_h) (crc : crc_engine)
    (desc : max22196_desc (List (Nat × Nat))) (desc' : max14906_desc (List (Nat × Nat)))
    (reg d v addr d' v' : Nat)
    (hA : H.MAX22196_ADDR_MASK % 2 = 0) (hR : H.MAX22196_REG_ADDR_MASK % 2 = 0)
    (hA' : H'.MAX14906_CHIP_ADDR_MASK % 2 = 0) (hR' : H'.MAX14906_ADDR_MASK % 2 = 0)
    (hd : d < 256) (hd' : d' < 256) :
    ((max22196_reg_write H crc (loopback crc) desc reg d).1 = 0 ∧
     (max22196_reg_read H crc (loopback crc)
        (max22196_reg_write H crc (loopback crc) desc reg d).2 reg v).1 = 0 ∧
     (max22196_reg_read H crc (loopback crc)
        (max22196_reg_write H crc (loopback crc) desc reg d).2 reg v).2.1 = d) ∧
    ((max14906_reg_write H' (loopback crc) desc' addr d').1 = 0 ∧
     (max14906_reg_read H' (loopback crc)
        (max14906_reg_write H' (loopback crc) desc' addr d').2 addr v').1 = 0 ∧
     (max14906_reg_read H' (loopback crc)
        (max14906_reg_write H' (loopback crc) desc' addr d').2 addr v').2.1 = d') :=
  ⟨max22196_loopback_round_trip H crc desc reg d v hA hR hd,
   max14906_loopback_round_trip H' crc desc' addr d' v' hA' hR' hd'⟩

/-- Witness of C4: the byte `0xA5` written to register 9 of a CRC-enabled
MAX22196 and the byte `0x3C` written to register 5 of a MAX14906 come back from
the loopback stub. -/
theorem loopback_round_trip_witness :
    (max22196_h_example.MAX22196_ADDR_MASK % 2 = 0 ∧
     max22196_h_example.MAX22196_REG_ADDR_MASK % 2 = 0 ∧
     max14906_h_example.MAX14906_CHIP_ADDR_MASK % 2 = 0 ∧
     max14906_h_example.MAX14906_ADDR_MASK % 2 = 0 ∧ 0xA5 < 256 ∧ 0x3C < 256) ∧
    (max22196_reg_read max22196_h_example crc_example (loopback crc_example)
        (max22196_reg_write max22196_h_example crc_example (loopback crc_example)
          (max22196_desc_example true []) 9 0xA5).2 9 0).2.1 = 0xA5 ∧
    (max14906_reg_read max14906_h_example (loopback crc_example)
        (max14906_reg_write max14906_h_example (loopback crc_example)
          (max14906_desc_example []) 5 0x3C).2 5 0).2.1 = 0x3C :=
  have h := loopback_round_trip max22196_h_example max14906_h_example crc_example
    (max22196_desc_example true []) (max14906_desc_example []) 9 0xA5 0 5 0x3C 0
    (by decide) (by decide) (by decide) (by decide) (by decide) (by decide)
  ⟨by decide, h.1.2.2, h.2.2.2⟩

/-! ## C5: layout of the control byte -/

theorem xor_succ_even (c : Nat) (hc : c % 2 = 0) : (c + 1) ^^^ c = 1 := by
  rw [← or_one_of_even c hc]
  apply Nat.eq_of_testBit_eq
  intro i
  rw [Nat.testBit_xor, Nat.testBit_or]
  rcases Nat.eq_zero_or_pos i with h0 | h0
  · subst h0
    have : c.testBit 0 = false := by rw [Nat.testBit_zero]; simp [hc]
    rw [this]; rfl
  · rw [testBit_le_one 1 i (le_refl 1) h0]
    cases c.testBit i <;> rfl

theorem last_ctrl_max22196_frame (l : List no_os_spi_msg) (crc : crc_engine) (en : Bool)
    (c d : Nat) (rx : Bool) :
    last_ctrl (l ++ [max22196_frame crc en c d rx]) = some c := by
  cases en <;>
    simp [last_ctrl, max22196_frame, max22196_bytes_number, MAX22196_FRAME_SIZE]

theorem last_ctrl_max14906_frame (l : List no_os_spi_msg) (c d : Nat) (rx : Bool) :
    last_ctrl (l ++ [max14906_frame c d rx]) = some c := by
  simp [last_ctrl, max14906_frame]

theorem max22196_ctrl_fields (H : max22196_h) (chip reg rw : Nat)
    (hA : H.MAX22196_ADDR_MASK < 256) (hAe : H.MAX22196_ADDR_MASK % 2 = 0)
    (hR : H.MAX22196_REG_ADDR_MASK < 256) (hRe : H.MAX22196_REG_ADDR_MASK % 2 = 0)
    (hAR : H.MAX22196_ADDR_MASK &&& H.MAX22196_REG_ADDR_MASK = 0) :
    max22196_ctrl H chip reg rw &&& H.MAX22196_ADDR_MASK =
      no_os_field_prep H.MAX22196_ADDR_MASK chip ∧
    max22196_ctrl H chip reg rw &&& H.MAX22196_REG_ADDR_MASK =
      no_os_field_prep H.MAX22196_REG_ADDR_MASK reg := by
  have hw : no_os_field_prep MAX22196_RW_MASK rw ≤ 1 := by
    unfold no_os_field_prep MAX22196_RW_MASK
    exact Nat.and_le_right
  have hRA : H.MAX22196_REG_ADDR_MASK &&& H.MAX22196_ADDR_MASK = 0 := by
    rw [Nat.and_comm]; exact hAR
  unfold max22196_ctrl
  exact ⟨(ctrl_byte_and_mask _ _ _ _ _ hA hAe hAR hw (field_prep_and_mask _ _)
      (field_prep_and_mask _ _)).1,
    (ctrl_byte_and_mask _ _ _ _ _ hR hRe hRA hw (field_prep_and_mask _ _)
      (field_prep_and_mask _ _)).2⟩

theorem max14906_ctrl_fields (H : max14906_h) (chip addr rw : Nat)
    (hA : H.MAX14906_CHIP_ADDR_MASK < 256) (hAe : H.MAX14906_CHIP_ADDR_MASK % 2 = 0)
    (hR : H.MAX14906_ADDR_MASK < 256) (hRe : H.MAX14906_ADDR_MASK % 2 = 0)
    (hAR : H.MAX14906_CHIP_ADDR_MASK &&& H.MAX14906_ADDR_MASK = 0) :
    max14906_ctrl H chip addr rw &&& H.MAX14906_CHIP_ADDR_MASK =
      no_os_field_prep H.MAX14906_CHIP_ADDR_MASK chip ∧
    max14906_ctrl H chip addr rw &&& H.MAX14906_ADDR_MASK =
      no_os_field_prep H.MAX14906_ADDR_MASK addr := by
  have hw : no_os_field_prep MAX14906_RW_MASK rw ≤ 1 := by
    unfold no_os_field_prep MAX14906_RW_MASK
    exact Nat.and_le_right
  have hRA : H.MAX14906_ADDR_MASK &&& H.MAX14906_CHIP_ADDR_MASK = 0 := by
    rw [Nat.and_comm]; exact hAR
  rw [max14906_ctrl_eq]
  exact ⟨(ctrl_byte_and_mask _ _ _ _ _ hA hAe hAR hw (field_prep_and_mask _ _)
      (field_prep_and_mask _ _)).1,
    (ctrl_byte_and_mask _ _ _ _ _ hR hRe hRA hw (field_prep_and_mask _ _)
      (field_prep_and_mask _ _)).2⟩

/-- C5. When the two address masks are byte-wide, disjoint and leave bit 0 free,
the control byte of the frame sent by `max22196_reg_write` has bit 0 set, the one
sent by `max22196_reg_read` has bit 0 clear, both carry the chip address under
`MAX22196_ADDR_MASK` and the register address under `MAX22196_REG_ADDR_MASK`, and
the two bytes differ in bit 0 only (their exclusive or is 1); likewise for
`max14906_reg_write` and `max14906_reg_read`. -/
theorem control_byte_layout {β γ : Type}
    (H : max22196_h) (crc : crc_engine) (T : spi_platform β) (desc : max22196_desc β)
    (reg val out : Nat)
    (H' : max14906_h) (T' : spi_platform γ) (desc' : max14906_desc γ)
    (addr val' out' : Nat)
    (hA : H.MAX22196_ADDR_MASK < 256) (hAe : H.MAX22196_ADDR_MASK % 2 = 0)
    (hR : H.MAX22196_REG_ADDR_MASK < 256) (hRe : H.MAX22196_REG_ADDR_MASK % 2 = 0)
    (hAR : H.MAX22196_ADDR_MASK &&& H.MAX22196_REG_ADDR_MASK = 0)
    (hA' : H'.MAX14906_CHIP_ADDR_MASK < 256) (hAe' : H'.MAX14906_CHIP_ADDR_MASK % 2 = 0)
    (hR' : H'.MAX14906_ADDR_MASK < 256) (hRe' : H'.MAX14906_ADDR_MASK % 2 = 0)
    (hAR' : H'.MAX14906_CHIP_ADDR_MASK &&& H'.MAX14906_ADDR_MASK = 0) :
    (∃ w r : Nat,
      last_ctrl (max22196_reg_write H crc T desc reg val).2.comm_desc.log = some w ∧
      last_ctrl (max22196_reg_read H crc T desc reg out).2.2.comm_desc.log = some r ∧
      w.testBit 0 = true ∧ r.testBit 0 = false ∧
      w &&& H.MAX22196_ADDR_MASK = no_os_field_prep H.MAX22196_ADDR_MASK desc.chip_address ∧
      r &&& H.MAX22196_ADDR_MASK = no_os_field_prep H.MAX22196_ADDR_MASK desc.chip_address ∧
      w &&& H.MAX22196_REG_ADDR_MASK = no_os_field_prep H.MAX22196_REG_ADDR_MASK reg ∧
      r &&& H.MAX22196_REG_ADDR_MASK = no_os_field_prep H.MAX22196_REG_ADDR_MASK reg ∧
      w ^^^ r = 1) ∧
    (∃ w r : Nat,
      last_ctrl (max14906_reg_write H' T' desc' addr val').2.comm_desc.log = some w ∧
      last_ctrl (max14906_reg_read H' T' desc' addr out').2.2.comm_desc.log = some r ∧
      w.testBit 0 = true ∧ r.testBit 0 = false ∧
      w &&& H'.MAX14906_CHIP_ADDR_MASK =
        no_os_field_prep H'.MAX14906_CHIP_ADDR_MASK desc'.chip_address ∧
      r &&& H'.MAX14906_CHIP_ADDR_MASK =
        no_os_field_prep H'.MAX14906_CHIP_ADDR_MASK desc'.chip_address ∧
      w &&& H'.MAX14906_ADDR_MASK = no_os_field_prep H'.MAX14906_ADDR_MASK addr ∧
      r &&& H'.MAX14906_ADDR_MASK = no_os_field_prep H'.MAX14906_ADDR_MASK addr ∧
      w ^^^ r = 1) := by
  constructor
  · obtain ⟨h0, h1, _⟩ := max22196_ctrl_rw H desc.chip_address reg hAe hRe
    have f1 := max22196_ctrl_fields H desc.chip_address reg 1 hA hAe hR hRe hAR
    have f0 := max22196_ctrl_fields H desc.chip_address reg 0 hA hAe hR hRe hAR
    refine ⟨max22196_ctrl H desc.chip_address reg 1, max22196_ctrl H desc.chip_address reg 0,
      ?_, ?_, ?_, ?_, f1.1, f0.1, f1.2, f0.2, ?_⟩
    · rw [max22196_reg_write_log]; exact last_ctrl_max22196_frame _ _ _ _ _ _
    · rw [max22196_reg_read_log]; exact last_ctrl_max22196_frame _ _ _ _ _ _
    · rw [Nat.testBit_zero, h1]; simp; omega
    · rw [Nat.testBit_zero]; simp; omega
    · rw [h1]; exact xor_succ_even _ h0
  · obtain ⟨h0, h1, _⟩ := max14906_ctrl_rw H' desc'.chip_address addr hAe' hRe'
    have f1 := max14906_ctrl_fields H' desc'.chip_address addr 1 hA' hAe' hR' hRe' hAR'
    have f0 := max14906_ctrl_fields H' desc'.chip_address addr 0 hA' hAe' hR' hRe' hAR'
    refine ⟨max14906_ctrl H' desc'.chip_address addr 1,
      max14906_ctrl H' desc'.chip_address addr 0,
      ?_, ?_, ?_, ?_, f1.1, f0.1, f1.2, f0.2, ?_⟩
    · rw [max14906_reg_write_log]; exact last_ctrl_max14906_frame _ _ _ _
    · rw [max14906_reg_read_log]; exact last_ctrl_max14906_frame _ _ _ _
    · rw [Nat.testBit_zero, h1]; simp; omega
    · rw [Nat.testBit_zero]; simp; omega
    · rw [h1]; exact xor_succ_even _ h0

/-- Witness of C5: with the chip address in bits 7..6 and the register address in
bits 5..1 (MAX22196) or 4..1 (MAX14906), the write and the read control byte of
register 3 differ in bit 0 only. -/
theorem control_byte_layout_witness :
    (max22196_h_example.MAX22196_ADDR_MASK < 256 ∧
     max22196_h_example.MAX22196_ADDR_MASK % 2 = 0 ∧
     max22196_h_example.MAX22196_REG_ADDR_MASK < 256 ∧
     max22196_h_example.MAX22196_REG_ADDR_MASK % 2 = 0 ∧
     max22196_h_example.MAX22196_ADDR_MASK &&&
       max22196_h_example.MAX22196_REG_ADDR_MASK = 0 ∧
     max14906_h_example.MAX14906_CHIP_ADDR_MASK < 256 ∧
     max14906_h_example.MAX14906_CHIP_ADDR_MASK % 2 = 0 ∧
     max14906_h_example.MAX14906_ADDR_MASK < 256 ∧
     max14906_h_example.MAX14906_ADDR_MASK % 2 = 0 ∧
     max14906_h_example.MAX14906_CHIP_ADDR_MASK &&&
       max14906_h_example.MAX14906_ADDR_MASK = 0) ∧
    (∃ w r : Nat,
      last_ctrl (max22196_reg_write max22196_h_example crc_example platform_const
        (max22196_desc_example true [0, 0, 0]) 3 0x5A).2.comm_desc.log = some w ∧
      last_ctrl (max22196_reg_read max22196_h_example crc_example platform_const
        (max22196_desc_example true [0, 0, 0]) 3 0).2.2.comm_desc.log = some r ∧
      w ^^^ r = 1) ∧
    (∃ w r : Nat,
      last_ctrl (max14906_reg_write max14906_h_example platform_const
        (max14906_desc_example [0, 0, 0]) 3 0x5A).2.comm_desc.log = some w ∧
      last_ctrl (max14906_reg_read max14906_h_example platform_const
        (max14906_desc_example [0, 0, 0]) 3 0).2.2.comm_desc.log = some r ∧
      w ^^^ r = 1) :=
  have h := control_byte_layout max22196_h_example crc_example platform_const
    (max22196_desc_example true [0, 0, 0]) 3 0x5A 0
    max14906_h_example platform_const (max14906_desc_example [0, 0, 0]) 3 0x5A 0
    (by decide) (by decide) (by decide) (by decide) (by decide)
    (by decide) (by decide) (by decide) (by decide) (by decide)
  ⟨by decide,
   h.1.elim fun w hw => hw.elim fun r hr => ⟨w, r, hr.1, hr.2.1, hr.2.2.2.2.2.2.2.2⟩,
   h.2.elim fun w hw => hw.elim fun r hr => ⟨w, r, hr.1, hr.2.1, hr.2.2.2.2.2.2.2.2⟩⟩

/-! ## C6: frame length -/

/-- C6. Every `max22196_reg_read` and every `max22196_reg_write` hands the
transport exactly one message; its `bytes_number` is 2 when `crc_en` is false
and 3 when it is true, and exactly that many bytes are sent. -/
theorem max22196_frame_length {β : Type}
    (H : max22196_h) (crc : crc_engine) (T : spi_platform β) (desc : max22196_desc β)
    (reg val out : Nat) :
    (∃ m : no_os_spi_msg,
      (max22196_reg_write H crc T desc reg val).2.comm_desc.log = desc.comm_desc.log ++ [m] ∧
      m.bytes_number = (if desc.crc_en then 3 else 2) ∧
      m.tx_buff.length = m.bytes_number) ∧
    (∃ m : no_os_spi_msg,
      (max22196_reg_read H crc T desc reg out).2.2.comm_desc.log =
        desc.comm_desc.log ++ [m] ∧
      m.bytes_number = (if desc.crc_en then 3 else 2) ∧
      m.tx_buff.length = m.bytes_number) := by
  refine ⟨⟨_, max22196_reg_write_log H crc T desc reg val, ?_, ?_⟩,
    ⟨_, max22196_reg_read_log H crc T desc reg out, ?_, ?_⟩⟩ <;>
    cases desc.crc_en <;>
    simp [max22196_frame, max22196_bytes_number, MAX22196_FRAME_SIZE]

/-! ## C7: the outbound read frame -/

/-- C7. Whatever the frame buffer held before, the frame `max22196_reg_read`
hands to the transport consists of the control byte, a zero data byte and, when
CRC is enabled, the CRC of the control byte followed by a zero data byte for the
outbound direction; nothing of the earlier buffer content is sent. -/
theorem max22196_read_frame_zero_filled {β : Type}
    (H : max22196_h) (crc : crc_engine) (T : spi_platform β) (desc : max22196_desc β)
    (reg out : Nat) :
    (max22196_reg_read H crc T desc reg out).2.2.comm_desc.log =
      desc.comm_desc.log ++
        [{ tx_buff :=
             if desc.crc_en then
               [max22196_ctrl H desc.chip_address reg 0, 0,
                crc (max22196_ctrl H desc.chip_address reg 0) 0 true % 256]
             else [max22196_ctrl H desc.chip_address reg 0, 0],
           rx_buff := true,
           bytes_number := if desc.crc_en then 3 else 2,
           cs_change := 1 }] ∧
    ∀ buff : frame_buff,
      (max22196_reg_read H crc T { desc with buff := buff } reg out).2.2.comm_desc.log =
        (max22196_reg_read H crc T desc reg out).2.2.comm_desc.log := by
  constructor
  · rw [max22196_reg_read_log]
    cases desc.crc_en <;>
      simp [max22196_frame, max22196_bytes_number, MAX22196_FRAME_SIZE]
  · intro buff
    rw [max22196_reg_read_log, max22196_reg_read_log]

/-! ## C8: channel bound checks -/

theorem max22196_ch_invalid_of_ge (H : max22196_h) (ch : Nat)
    (hpos : 0 < H.MAX22196_CHANNELS) (hle : H.MAX22196_CHANNELS ≤ 4294967296)
    (hch : H.MAX22196_CHANNELS ≤ ch) : max22196_ch_invalid H ch = true := by
  unfold max22196_ch_invalid
  rw [decide_eq_true_eq]
  omega

/-- C8. For a channel index `ch >= MAX22196_CHANNELS` the functions
`max22196_chan_cfg`, `max22196_set_chan_cnt` and `max22196_get_chan_cnt` return
`-EINVAL`, and for `ch >= MAX14906_CHANNELS` so do `max14906_ch_get` and
`max14906_ch_set`; the descriptor comes back as it was, frame buffer and
transport log included, so no exchange is made, and the output bytes are not
written.  `MAX22196_CHANNELS` is a positive 32-bit constant. -/
theorem channel_bound_checks {β γ : Type}
    (H : max22196_h) (crc : crc_engine) (T : spi_platform β) (desc : max22196_desc β)
    (ch hi_thr source curr flt_en delay msb lsb : Nat)
    (H' : max14906_h) (T' : spi_platform γ) (desc' : max14906_desc γ) (ch' val out : Nat)
    (hpos : 0 < H.MAX22196_CHANNELS) (hle : H.MAX22196_CHANNELS ≤ 4294967296)
    (hch : H.MAX22196_CHANNELS ≤ ch) (hch' : H'.MAX14906_CHANNELS ≤ ch') :
    max22196_chan_cfg H crc T desc ch hi_thr source curr flt_en delay = (-EINVAL, desc) ∧
    max22196_set_chan_cnt H crc T desc ch msb lsb = (-EINVAL, desc) ∧
    max22196_get_chan_cnt H crc T desc ch msb lsb = (-EINVAL, msb, lsb, desc) ∧
    max14906_ch_get H' T' desc' ch' out = (-EINVAL, out, desc') ∧
    max14906_ch_set H' T' desc' ch' val = (-EINVAL, desc') := by
  have h := max22196_ch_invalid_of_ge H ch hpos hle hch
  refine ⟨?_, ?_, ?_, ?_, ?_⟩
  · simp [max22196_chan_cfg, h]
  · simp [max22196_set_chan_cnt, h]
  · simp [max22196_get_chan_cnt, h]
  · simp [max14906_ch_get, hch']
  · simp [max14906_ch_set, hch']

/-- Witness of C8: channel 8 of the eight-channel MAX22196 and channel 4 of the
four-channel MAX14906 are refused without any exchange. -/
theorem channel_bound_checks_witness :
    (0 < max22196_h_example.MAX22196_CHANNELS ∧
     max22196_h_example.MAX22196_CHANNELS ≤ 4294967296 ∧
     max22196_h_example.MAX22196_CHANNELS ≤ 8 ∧
     max14906_h_example.MAX14906_CHANNELS ≤ 4) ∧
    (max22196_set_chan_cnt max22196_h_example crc_example platform_const
        (max22196_desc_example true [0, 0, 0]) 8 0x12 0x34).1 = -EINVAL ∧
    (max22196_set_chan_cnt max22196_h_example crc_example platform_const
        (max22196_desc_example true [0, 0, 0]) 8 0x12 0x34).2.comm_desc.log = [] ∧
    (max14906_ch_set max14906_h_example platform_const
        (max14906_desc_example [0, 0, 0]) 4 1).1 = -EINVAL :=
  have h := channel_bound_checks max22196_h_example crc_example platform_const
    (max22196_desc_example true [0, 0, 0]) 8 0 0 0 0 0 0x12 0x34
    max14906_h_example platform_const (max14906_desc_example [0, 0, 0]) 4 1 0
    (by decide) (by decide) (by decide) (by decide)
  ⟨by decide, congrArg Prod.fst h.2.1,
   congrArg (fun r => r.2.comm_desc.log) h.2.1,
   congrArg Prod.fst h.2.2.2.2⟩

/-! ## C9: `max14906_ch_func` has no channel bound check -/

/-- Whatever the channel index, `max14906_ch_func` starts with a register read:
the transport log grows by at least one message. -/
theorem max14906_ch_func_always_transfers {β : Type} (H : max14906_h) (T : spi_platform β)
    (desc : max14906_desc β) (ch function : Nat) :
    ∃ (m : no_os_spi_msg) (l : List no_os_spi_msg),
      (max14906_ch_func H T desc ch function).2.comm_desc.log =
        desc.comm_desc.log ++ m :: l := by
  have key : ∀ (d : max14906_desc β) (addr mask val : Nat),
      ∃ (m : no_os_spi_msg) (l : List no_os_spi_msg),
        (max14906_reg_update H T d addr mask val).2.comm_desc.log =
          d.comm_desc.log ++ m :: l := by
    intro d addr mask val
    unfold max14906_reg_update
    simp only []
    split_ifs
    · exact ⟨_, [], max14906_reg_read_log H T d addr 0⟩
    · rw [max14906_reg_write_log, max14906_reg_read_log, List.append_assoc]
      exact ⟨_, [_], rfl⟩
  unfold max14906_ch_func
  simp only []
  split_ifs
  · exact key _ _ _ _
  · obtain ⟨m, l, h⟩ := key desc H.MAX14906_CONFIG_DO_REG (H.MAX14906_DO_MASK ch)
      (no_os_field_prep (H.MAX14906_DO_MASK ch) H.MAX14906_PUSH_PULL_CLAMP)
    obtain ⟨m', l', h'⟩ := key
      (max14906_reg_update H T desc H.MAX14906_CONFIG_DO_REG (H.MAX14906_DO_MASK ch)
        (no_os_field_prep (H.MAX14906_DO_MASK ch) H.MAX14906_PUSH_PULL_CLAMP)).2
      H.MAX14906_SETOUT_REG (H.MAX14906_CH_DIR_MASK ch)
      (no_os_field_prep (H.MAX14906_CH_DIR_MASK ch) function)
    refine ⟨m, l ++ m' :: l', ?_⟩
    rw [h', h, List.append_assoc]
    rfl
  · exact key _ _ _ _

/-- C9, the code at the failing input: on the four-channel register map,
`max14906_ch_func` called with channel 4 over a transport that answers every
exchange returns 0, not `-EINVAL`, after two exchanges (the read and the write
of `MAX14906_SETOUT_REG`), while `max14906_ch_set` refuses the same channel. -/
theorem max14906_ch_func_channel_unchecked :
    max14906_h_example.MAX14906_CHANNELS ≤ 4 ∧
    (max14906_ch_func max14906_h_example platform_const
        (max14906_desc_example [0, 0x5A, 0]) 4 0).1 = 0 ∧
    (max14906_ch_func max14906_h_example platform_const
        (max14906_desc_example [0, 0x5A, 0]) 4 0).2.comm_desc.log =
      [max14906_frame 0x80 0xBB true, max14906_frame 0x81 0x5A false] ∧
    (max14906_ch_set max14906_h_example platform_const
        (max14906_desc_example [0, 0x5A, 0]) 4 0).1 = -EINVAL := by
  decide

/-! ## C10: register addresses are not validated -/

/-- C10 as stated fails: on the register map whose address field is bits 5..1,
address `0x23` does not fit the field (the largest address that does is `0x1F`),
yet `max22196_reg_write` and `max14906_reg_write` return 0 over a transport that
answers, `max22196_reg_read` and `max14906_reg_read` return 0 as well, and the
frames sent are the frames of the in-range register `0x03`. -/
theorem reg_access_address_unchecked_counterexample :
    no_os_field_get max22196_h_example.MAX22196_REG_ADDR_MASK
        max22196_h_example.MAX22196_REG_ADDR_MASK < 0x23 ∧
    no_os_field_get max14906_h_example.MAX14906_ADDR_MASK
        max14906_h_example.MAX14906_ADDR_MASK < 0x23 ∧
    (max22196_reg_write max22196_h_example crc_example platform_const
        (max22196_desc_example false [0, 0x5A, 0]) 0x23 0x77).1 = 0 ∧
    (max22196_reg_read max22196_h_example crc_example platform_const
        (max22196_desc_example false [0, 0x5A, 0]) 0x23 0).1 = 0 ∧
    (max14906_reg_write max14906_h_example platform_const
        (max14906_desc_example [0, 0x5A, 0]) 0x23 0x77).1 = 0 ∧
    (max14906_reg_read max14906_h_example platform_const
        (max14906_desc_example [0, 0x5A, 0]) 0x23 0).1 = 0 ∧
    (max22196_reg_write max22196_h_example crc_example platform_const
        (max22196_desc_example false [0, 0x5A, 0]) 0x23 0x77).2.comm_desc.log =
      (max22196_reg_write max22196_h_example crc_example platform_const
        (max22196_desc_example false [0, 0x5A, 0]) 0x03 0x77).2.comm_desc.log ∧
    (max14906_reg_write max14906_h_example platform_const
        (max14906_desc_example [0, 0x5A, 0]) 0x23 0x77).2.comm_desc.log =
      (max14906_reg_write max14906_h_example platform_const
        (max14906_desc_example [0, 0x5A, 0]) 0x03 0x77).2.comm_desc.log := by
  decide

/-- C10 amended. The register read and write functions do not validate the
register address.  A write returns the code of the one exchange it makes, and
the address enters the frame only through `no_os_field_prep` of the
register-address mask: two addresses with the same image under the mask, in
range or not, give the same call, frame and result included. -/
theorem reg_access_address_masked {β γ : Type}
    (H : max22196_h) (crc : crc_engine) (T : spi_platform β) (desc : max22196_desc β)
    (reg reg' val out : Nat)
    (H' : max14906_h) (T' : spi_platform γ) (desc' : max14906_desc γ)
    (addr addr' val' out' : Nat)
    (h : no_os_field_prep H.MAX22196_REG_ADDR_MASK reg =
      no_os_field_prep H.MAX22196_REG_ADDR_MASK reg')
    (h' : no_os_field_prep H'.MAX14906_ADDR_MASK addr =
      no_os_field_prep H'.MAX14906_ADDR_MASK addr') :
    (max22196_reg_write H crc T desc reg val = max22196_reg_write H crc T desc reg' val ∧
     max22196_reg_read H crc T desc reg out = max22196_reg_read H crc T desc reg' out ∧
     (max22196_reg_write H crc T desc reg val).1 =
       (T desc.comm_desc.bus
         (max22196_frame crc desc.crc_en (max22196_ctrl H desc.chip_address reg' 1)
           (val % 256) false)).ret) ∧
    (max14906_reg_write H' T' desc' addr val' = max14906_reg_write H' T' desc' addr' val' ∧
     max14906_reg_read H' T' desc' addr out' = max14906_reg_read H' T' desc' addr' out' ∧
     (max14906_reg_write H' T' desc' addr val').1 =
       (T' desc'.comm_desc.bus
         (max14906_frame (max14906_ctrl H' desc'.chip_address addr' 1) (val' % 256)
           false)).ret) := by
  have hc : ∀ rw, max22196_ctrl H desc.chip_address reg rw =
      max22196_ctrl H desc.chip_address reg' rw := by
    intro rw; unfold max22196_ctrl; rw [h]
  have hc' : ∀ rw, max14906_ctrl H' desc'.chip_address addr rw =
      max14906_ctrl H' desc'.chip_address addr' rw := by
    intro rw; unfold max14906_ctrl; rw [h']
  refine ⟨⟨?_, ?_, ?_⟩, ⟨?_, ?_, ?_⟩⟩
  · simp only [max22196_reg_write, hc]
  · simp only [max22196_reg_read, hc]
  · rw [max22196_reg_write_ret, hc]
  · simp only [max14906_reg_write, hc']
  · simp only [max14906_reg_read, hc']
  · rw [max14906_reg_write_ret, hc']

/-- Witness of C10 amended: the addresses `0x23` and `0x03` have the same image
under both register-address masks, and a write to `0x23` returns the code of the
failing transport, not `-EINVAL`. -/
theorem reg_access_address_masked_witness :
    (no_os_field_prep max22196_h_example.MAX22196_REG_ADDR_MASK 0x23 =
       no_os_field_prep max22196_h_example.MAX22196_REG_ADDR_MASK 0x03 ∧
     no_os_field_prep max14906_h_example.MAX14906_ADDR_MASK 0x23 =
       no_os_field_prep max14906_h_example.MAX14906_ADDR_MASK 0x03) ∧
    max22196_reg_write max22196_h_example crc_example (platform_fail (-5))
        (max22196_desc_example true ()) 0x23 0x77 =
      max22196_reg_write max22196_h_example crc_example (platform_fail (-5))
        (max22196_desc_example true ()) 0x03 0x77 ∧
    (max22196_reg_write max22196_h_example crc_example (platform_fail (-5))
        (max22196_desc_example true ()) 0x23 0x77).1 = -5 :=
  have h := reg_access_address_masked max22196_h_example crc_example (platform_fail (-5))
    (max22196_desc_example true ()) 0x23 0x03 0x77 0
    max14906_h_example (platform_fail (-5)) (max14906_desc_example ()) 0x23 0x03 0x77 0
    (by decide) (by decide)
  ⟨by decide, h.1.1, h.1.2.2.trans (by decide)⟩

/-! ## Acceptance of a CRC-enabled response in terms of the bytes clocked in

Whether a corrupted control or data byte is detected is a property of the
routine `max149x6_crc` alone; a corrupted check byte is detected by the
comparison in `max22196_reg_read` itself. -/

theorem max22196_reg_read_accepts_iff {β : Type}
    (H : max22196_h) (crc : crc_engine) (T : spi_platform β) (desc : max22196_desc β)
    (reg val a b c : Nat) (hen : desc.crc_en = true)
    (hret : (T desc.comm_desc.bus
        (max22196_frame crc true (max22196_ctrl H desc.chip_address reg 0) 0 true)).ret = 0)
    (hrx : (T desc.comm_desc.bus
        (max22196_frame crc true (max22196_ctrl H desc.chip_address reg 0) 0 true)).rx
          = [a, b, c]) :
    (max22196_reg_read H crc T desc reg val).1 = 0 ↔
      crc (a % 256) (b % 256) false % 256 = c % 256 := by
  obtain ⟨comm, chip, buff, crc_en⟩ := desc
  simp only at hen
  subst hen
  simp only [max22196_frame, max22196_bytes_number, MAX22196_FRAME_SIZE, if_true,
    List.take, Nat.reduceAdd] at hret hrx
  simp only [max22196_reg_read, max22196_bytes_number, MAX22196_FRAME_SIZE, if_true,
    true_and, no_os_spi_transfer, frame_buff.bytes, frame_buff.memset0, frame_buff.recv,
    List.take, hret, hrx, recv_byte, ne_eq, not_true_eq_false, if_false, Nat.lt_add_one,
    Nat.zero_lt_succ, Nat.one_lt_ofNat, Nat.reduceAdd, Nat.reduceLT, List.get?]
  split_ifs with h
  · exact ⟨fun _ => h, fun _ => rfl⟩
  · exact ⟨fun h0 => absurd h0 (by simp [EINVAL]), fun h2 => absurd h2 h⟩

theorem max22196_reg_read_detects_crc_byte_flip {β : Type}
    (H : max22196_h) (crc : crc_engine) (T T' : spi_platform β) (desc : max22196_desc β)
    (reg val a b c c' : Nat) (hen : desc.crc_en = true)
    (hret : (T desc.comm_desc.bus
        (max22196_frame crc true (max22196_ctrl H desc.chip_address reg 0) 0 true)).ret = 0)
    (hrx : (T desc.comm_desc.bus
        (max22196_frame crc true (max22196_ctrl H desc.chip_address reg 0) 0 true)).rx
          = [a, b, c])
    (hret' : (T' desc.comm_desc.bus
        (max22196_frame crc true (max22196_ctrl H desc.chip_address reg 0) 0 true)).ret = 0)
    (hrx' : (T' desc.comm_desc.bus
        (max22196_frame crc true (max22196_ctrl H desc.chip_address reg 0) 0 true)).rx
          = [a, b, c'])
    (hflip : c % 256 ≠ c' % 256)
    (hacc : (max22196_reg_read H crc T desc reg val).1 = 0) :
    (max22196_reg_read H crc T' desc reg val).1 ≠ 0 := by
  intro h0
  have e := (max22196_reg_read_accepts_iff H crc T desc reg val a b c hen hret hrx).mp hacc
  have e' := (max22196_reg_read_accepts_iff H crc T' desc reg val a b c' hen hret' hrx').mp h0
  exact hflip (e.symm.trans e')

/-! ## Lemmas on failure paths and on the messages of an update -/

theorem max22196_reg_read_ret_of_fail {β : Type} (H : max22196_h) (crc : crc_engine)
    (T : spi_platform β) (desc : max22196_desc β) (reg val : Nat)
    (h : (T desc.comm_desc.bus
        (max22196_frame crc desc.crc_en (max22196_ctrl H desc.chip_address reg 0) 0 true)).ret
          ≠ 0) :
    (max22196_reg_read H crc T desc reg val).1 =
      (T desc.comm_desc.bus
        (max22196_frame crc desc.crc_en (max22196_ctrl H desc.chip_address reg 0) 0 true)).ret := by
  obtain ⟨comm, chip, buff, crc_en⟩ := desc
  cases crc_en <;>
    simp only [max22196_frame, max22196_bytes_number, MAX22196_FRAME_SIZE,
      Bool.false_eq_true, if_false, if_true, List.take] at h <;>
    simp only [max22196_reg_read, max22196_bytes_number, MAX22196_FRAME_SIZE,
      Bool.false_eq_true, if_false, if_true, false_and, true_and, no_os_spi_transfer,
      frame_buff.bytes, frame_buff.memset0, List.take, Nat.lt_add_one, Nat.zero_lt_succ,
      Nat.one_lt_ofNat, Nat.reduceAdd, Nat.reduceLT, max22196_frame, ne_eq, h,
      not_false_eq_true]

theorem max22196_reg_read_val_of_fail {β : Type} (H : max22196_h) (crc : crc_engine)
    (T : spi_platform β) (desc : max22196_desc β) (reg val : Nat)
    (h : (max22196_reg_read H crc T desc reg val).1 ≠ 0) :
    (max22196_reg_read H crc T desc reg val).2.1 = val := by
  obtain ⟨comm, chip, buff, crc_en⟩ := desc
  cases crc_en <;>
    simp only [max22196_reg_read, max22196_bytes_number, MAX22196_FRAME_SIZE,
      Bool.false_eq_true, if_false, if_true, false_and, true_and] at h ⊢ <;>
    split_ifs at h ⊢ <;>
    first
      | rfl
      | exact absurd rfl h

theorem max14906_reg_read_ret_of_fail {β : Type} (H : max14906_h) (T : spi_platform β)
    (desc : max14906_desc β) (addr val : Nat)
    (h : (T desc.comm_desc.bus
        (max14906_frame (max14906_ctrl H desc.chip_address addr 0) desc.buff.b1 true)).ret
          ≠ 0) :
    (max14906_reg_read H T desc addr val).1 =
      (T desc.comm_desc.bus
        (max14906_frame (max14906_ctrl H desc.chip_address addr 0) desc.buff.b1 true)).ret := by
  simp only [max14906_frame] at h
  simp only [max14906_reg_read, no_os_spi_transfer, frame_buff.bytes, MAX14906_FRAME_SIZE,
    List.take, max14906_frame, ne_eq, h, not_false_eq_true, if_true]

theorem max14906_reg_read_val_of_fail {β : Type} (H : max14906_h) (T : spi_platform β)
    (desc : max14906_desc β) (addr val : Nat)
    (h : (max14906_reg_read H T desc addr val).1 ≠ 0) :
    (max14906_reg_read H T desc addr val).2.1 = val := by
  simp only [max14906_reg_read] at h ⊢
  split_ifs at h ⊢
  · rfl
  · exact absurd rfl h

theorem max22196_reg_update_of_fail {β : Type} (H : max22196_h) (crc : crc_engine)
    (T : spi_platform β) (desc : max22196_desc β) (reg mask val : Nat)
    (h : (max22196_reg_read H crc T desc reg 0).1 ≠ 0) :
    max22196_reg_update H crc T desc reg mask val =
      ((max22196_reg_read H crc T desc reg 0).1, (max22196_reg_read H crc T desc reg 0).2.2) := by
  unfold max22196_reg_update
  simp only [h, ne_eq, not_false_eq_true, if_true]

theorem max14906_reg_update_of_fail {β : Type} (H : max14906_h) (T : spi_platform β)
    (desc : max14906_desc β) (addr mask val : Nat)
    (h : (max14906_reg_read H T desc addr 0).1 ≠ 0) :
    max14906_reg_update H T desc addr mask val =
      ((max14906_reg_read H T desc addr 0).1, (max14906_reg_read H T desc addr 0).2.2) := by
  unfold max14906_reg_update
  simp only [h, ne_eq, not_false_eq_true, if_true]

theorem max22196_reg_update_log {β : Type} (H : max22196_h) (crc : crc_engine)
    (T : spi_platform β) (desc : max22196_desc β) (reg mask val : Nat) :
    (max22196_reg_update H crc T desc reg mask val).2.comm_desc.log =
      desc.comm_desc.log ++ max22196_update_msgs H crc T desc reg mask val := by
  unfold max22196_update_msgs
  by_cases h : (max22196_reg_read H crc T desc reg 0).1 = 0
  · have hm : masked_update_spec (max22196_reg_read H crc T desc reg 0).2.1 mask val % 256 =
        masked_update_spec (max22196_reg_read H crc T desc reg 0).2.1 mask val := by
      unfold masked_update_spec; exact Nat.mod_mod _ _
    rw [max22196_reg_update_eq H crc T desc reg mask val h, max22196_reg_write_log,
      max22196_reg_read_log, (max22196_reg_read_fields H crc T desc reg 0).1,
      (max22196_reg_read_fields H crc T desc reg 0).2, hm]
    simp [h]
  · rw [max22196_reg_update_of_fail H crc T desc reg mask val h, max22196_reg_read_log]
    simp [h]

theorem max22196_reg_update_fields {β : Type} (H : max22196_h) (crc : crc_engine)
    (T : spi_platform β) (desc : max22196_desc β) (reg mask val : Nat) :
    (max22196_reg_update H crc T desc reg mask val).2.crc_en = desc.crc_en ∧
    (max22196_reg_update H crc T desc reg mask val).2.chip_address = desc.chip_address := by
  by_cases h : (max22196_reg_read H crc T desc reg 0).1 = 0
  · rw [max22196_reg_update_eq H crc T desc reg mask val h]
    have hw := max22196_reg_write_fields H crc T (max22196_reg_read H crc T desc reg 0).2.2 reg
      (masked_update_spec (max22196_reg_read H crc T desc reg 0).2.1 mask val)
    have hr := max22196_reg_read_fields H crc T desc reg 0
    exact ⟨hw.1.trans hr.1, hw.2.trans hr.2⟩
  · rw [max22196_reg_update_of_fail H crc T desc reg mask val h]
    exact max22196_reg_read_fields H crc T desc reg 0

theorem max22196_reg_update_ret_of_fail {β : Type} (H : max22196_h) (crc : crc_engine)
    (T : spi_platform β) (desc : max22196_desc β) (reg mask val : Nat)
    (h : (max22196_reg_update H crc T desc reg mask val).1 = 0) :
    (max22196_reg_read H crc T desc reg 0).1 = 0 := by
  by_contra hne
  rw [max22196_reg_update_of_fail H crc T desc reg mask val hne] at h
  exact hne h

theorem max14906_reg_write_chip {β : Type} (H : max14906_h) (T : spi_platform β)
    (desc : max14906_desc β) (addr val : Nat) :
    (max14906_reg_write H T desc addr val).2.chip_address = desc.chip_address := by
  simp [max14906_reg_write]

theorem max14906_reg_update_log {β : Type} (H : max14906_h) (T : spi_platform β)
    (desc : max14906_desc β) (addr mask val : Nat) :
    (max14906_reg_update H T desc addr mask val).2.comm_desc.log =
      desc.comm_desc.log ++ max14906_update_msgs H T desc addr mask val := by
  unfold max14906_update_msgs
  by_cases h : (max14906_reg_read H T desc addr 0).1 = 0
  · have hm : masked_update_spec (max14906_reg_read H T desc addr 0).2.1 mask val % 256 =
        masked_update_spec (max14906_reg_read H T desc addr 0).2.1 mask val := by
      unfold masked_update_spec; exact Nat.mod_mod _ _
    rw [max14906_reg_update_eq H T desc addr mask val h, max14906_reg_write_log,
      max14906_reg_read_log, max14906_reg_read_chip, hm]
    simp [h]
  · rw [max14906_reg_update_of_fail H T desc addr mask val h, max14906_reg_read_log]
    simp [h]

theorem max14906_reg_update_chip {β : Type} (H : max14906_h) (T : spi_platform β)
    (desc : max14906_desc β) (addr mask val : Nat) :
    (max14906_reg_update H T desc addr mask val).2.chip_address = desc.chip_address := by
  by_cases h : (max14906_reg_read H T desc addr 0).1 = 0
  · rw [max14906_reg_update_eq H T desc addr mask val h, max14906_reg_write_chip,
      max14906_reg_read_chip]
  · rw [max14906_reg_update_of_fail H T desc addr mask val h]
    exact max14906_reg_read_chip H T desc addr 0

/-! ## C11: order of the two updates of `max14906_ch_func` for high impedance -/

/-- C11. For every channel, `max14906_ch_func` with `MAX14906_HIGH_Z` hands the
transport first the messages of the masked update of `MAX14906_CONFIG_DO_REG`
(field `MAX14906_DO_MASK(ch)`, value `MAX14906_PUSH_PULL_CLAMP`) and only after
them, and only when that update returned 0, the messages of the masked update
of `MAX14906_SETOUT_REG` (field `MAX14906_CH_DIR_MASK(ch)`, value the function);
when the first update fails its code is returned and nothing follows. -/
theorem max14906_ch_func_high_z_order {β : Type} (H : max14906_h) (T : spi_platform β)
    (desc : max14906_desc β) (ch : Nat) :
    (max14906_ch_func H T desc ch H.MAX14906_HIGH_Z).2.comm_desc.log =
      desc.comm_desc.log ++
        max14906_update_msgs H T desc H.MAX14906_CONFIG_DO_REG (H.MAX14906_DO_MASK ch)
          (no_os_field_prep (H.MAX14906_DO_MASK ch) H.MAX14906_PUSH_PULL_CLAMP) ++
        (if (max14906_reg_update H T desc H.MAX14906_CONFIG_DO_REG (H.MAX14906_DO_MASK ch)
              (no_os_field_prep (H.MAX14906_DO_MASK ch) H.MAX14906_PUSH_PULL_CLAMP)).1 ≠ 0
         then []
         else max14906_update_msgs H T
           (max14906_reg_update H T desc H.MAX14906_CONFIG_DO_REG (H.MAX14906_DO_MASK ch)
              (no_os_field_prep (H.MAX14906_DO_MASK ch) H.MAX14906_PUSH_PULL_CLAMP)).2
           H.MAX14906_SETOUT_REG (H.MAX14906_CH_DIR_MASK ch)
           (no_os_field_prep (H.MAX14906_CH_DIR_MASK ch) H.MAX14906_HIGH_Z)) ∧
    (max14906_ch_func H T desc ch H.MAX14906_HIGH_Z).1 =
      (if (max14906_reg_update H T desc H.MAX14906_CONFIG_DO_REG (H.MAX14906_DO_MASK ch)
            (no_os_field_prep (H.MAX14906_DO_MASK ch) H.MAX14906_PUSH_PULL_CLAMP)).1 ≠ 0
       then
         (max14906_reg_update H T desc H.MAX14906_CONFIG_DO_REG (H.MAX14906_DO_MASK ch)
            (no_os_field_prep (H.MAX14906_DO_MASK ch) H.MAX14906_PUSH_PULL_CLAMP)).1
       else
         (max14906_reg_update H T
           (max14906_reg_update H T desc H.MAX14906_CONFIG_DO_REG (H.MAX14906_DO_MASK ch)
              (no_os_field_prep (H.MAX14906_DO_MASK ch) H.MAX14906_PUSH_PULL_CLAMP)).2
           H.MAX14906_SETOUT_REG (H.MAX14906_CH_DIR_MASK ch)
           (no_os_field_prep (H.MAX14906_CH_DIR_MASK ch) H.MAX14906_HIGH_Z)).1) ∧
    (∃ rest : List no_os_spi_msg,
      max14906_update_msgs H T desc H.MAX14906_CONFIG_DO_REG (H.MAX14906_DO_MASK ch)
          (no_os_field_prep (H.MAX14906_DO_MASK ch) H.MAX14906_PUSH_PULL_CLAMP) =
        max14906_frame (max14906_ctrl H desc.chip_address H.MAX14906_CONFIG_DO_REG 0)
          desc.buff.b1 true :: rest) := by
  refine ⟨?_, ?_, ⟨_, rfl⟩⟩
  · unfold max14906_ch_func
    simp only [if_true]
    split_ifs with h
    · rw [max14906_reg_update_log, List.append_nil]
    · rw [max14906_reg_update_log, max14906_reg_update_log, List.append_assoc]
  · unfold max14906_ch_func
    simp only [if_true]
    split_ifs with h <;> rfl

/-- Evaluation of C11: with every exchange answered, the four messages are the
read and the write of `MAX14906_CONFIG_DO_REG` (`0x0C`) followed by the read and
the write of `MAX14906_SETOUT_REG` (`0x00`); when the first exchange fails,
nothing but the read of `MAX14906_CONFIG_DO_REG` is sent. -/
theorem max14906_ch_func_high_z_order_witness :
    (max14906_ch_func max14906_h_example platform_const
        (max14906_desc_example [0, 0x5A, 0]) 1 3).2.comm_desc.log =
      [max14906_frame 0x98 0xBB true, max14906_frame 0x99 0x5A false,
       max14906_frame 0x80 0x5A true, max14906_frame 0x81 0x7A false] ∧
    (max14906_ch_func max14906_h_example (platform_fail_at 0)
        (max14906_desc_example 0) 1 3).2.comm_desc.log =
      [max14906_frame 0x98 0xBB true] ∧
    (max14906_ch_func max14906_h_example (platform_fail_at 0)
        (max14906_desc_example 0) 1 3).1 = -5 :=
  have h := max14906_ch_func_high_z_order max14906_h_example platform_const
    (max14906_desc_example [0, 0x5A, 0]) 1
  have h' := max14906_ch_func_high_z_order max14906_h_example (platform_fail_at 0)
    (max14906_desc_example 0) 1
  ⟨h.1.trans (by decide), h'.1.trans (by decide), h'.2.1.trans (by decide)⟩

/-! ## C12: the sequence of `max22196_set_chan_cnt` -/

theorem max22196_ch_invalid_of_lt (H : max22196_h) (ch : Nat)
    (hle : H.MAX22196_CHANNELS ≤ 4294967296) (hch : ch < H.MAX22196_CHANNELS) :
    max22196_ch_invalid H ch = false := by
  unfold max22196_ch_invalid
  rw [decide_eq_false_iff_not]
  omega

theorem masked_update_spec_and_mask (old m v : Nat) :
    masked_update_spec old m v &&& m = (v &&& m) % 256 := by
  apply Nat.eq_of_testBit_eq
  intro i
  have h256 : (256 : Nat) = 2 ^ 8 := by norm_num
  rw [Nat.testBit_and, masked_update_spec_testBit, h256, Nat.testBit_mod_two_pow,
    Nat.testBit_and]
  by_cases hi : i < 8 <;> cases m.testBit i <;> simp [hi]

theorem field_prep_zero (m : Nat) : no_os_field_prep m 0 = 0 := by
  unfold no_os_field_prep
  simp

theorem masked_update_spec_mod (old m v : Nat) :
    masked_update_spec old m v % 256 = masked_update_spec old m v := by
  unfold masked_update_spec
  exact Nat.mod_mod _ _

/-- The messages of an update whose read returned 0. -/
theorem max22196_update_msgs_of_ok {β : Type} (H : max22196_h) (crc : crc_engine)
    (T : spi_platform β) (desc : max22196_desc β) (reg mask val : Nat)
    (h : (max22196_reg_read H crc T desc reg 0).1 = 0) :
    max22196_update_msgs H crc T desc reg mask val =
      [max22196_frame crc desc.crc_en (max22196_ctrl H desc.chip_address reg 0) 0 true,
       max22196_frame crc desc.crc_en (max22196_ctrl H desc.chip_address reg 1)
          (masked_update_spec (max22196_reg_read H crc T desc reg 0).2.1 mask val) false] := by
  unfold max22196_update_msgs
  simp [h]

/-- The messages of an update whose read failed. -/
theorem max22196_update_msgs_of_fail {β : Type} (H : max22196_h) (crc : crc_engine)
    (T : spi_platform β) (desc : max22196_desc β) (reg mask val : Nat)
    (h : (max22196_reg_read H crc T desc reg 0).1 ≠ 0) :
    max22196_update_msgs H crc T desc reg mask val =
      [max22196_frame crc desc.crc_en (max22196_ctrl H desc.chip_address reg 0) 0 true] := by
  unfold max22196_update_msgs
  simp [h]

/-- C12. For a channel below `MAX22196_CHANNELS`, when `max22196_set_chan_cnt`
returns 0 (every step succeeded), the messages it handed to the transport are,
in this order: the read of `MAX22196_START_STOP_REG` and the write of the byte
read with the channel's count field cleared, the write of `lsb` to
`MAX22196_CNT_LSB_REG(ch)`, the write of `msb` to `MAX22196_CNT_MSB_REG(ch)`, the
read of `MAX22196_START_STOP_REG` and the write of the byte read with the
channel's count field set.  Both counter bytes are written between the write
that clears the count field and the write that sets it. -/
theorem max22196_set_chan_cnt_sequence {β : Type}
    (H : max22196_h) (crc : crc_engine) (T : spi_platform β) (desc : max22196_desc β)
    (ch msb lsb : Nat)
    (hle : H.MAX22196_CHANNELS ≤ 4294967296) (hch : ch < H.MAX22196_CHANNELS)
    (hret : (max22196_set_chan_cnt H crc T desc ch msb lsb).1 = 0) :
    ∃ old1 old2 : Nat,
      (max22196_set_chan_cnt H crc T desc ch msb lsb).2.comm_desc.log =
        desc.comm_desc.log ++
          [max22196_frame crc desc.crc_en
             (max22196_ctrl H desc.chip_address H.MAX22196_START_STOP_REG 0) 0 true,
           max22196_frame crc desc.crc_en
             (max22196_ctrl H desc.chip_address H.MAX22196_START_STOP_REG 1)
             (masked_update_spec old1 (H.MAX22196_CNT_MASK ch)
               (no_os_field_prep (H.MAX22196_CNT_MASK ch) 0)) false,
           max22196_frame crc desc.crc_en
             (max22196_ctrl H desc.chip_address (H.MAX22196_CNT_LSB_REG ch) 1)
             (lsb % 256) false,
           max22196_frame crc desc.crc_en
             (max22196_ctrl H desc.chip_address (H.MAX22196_CNT_MSB_REG ch) 1)
             (msb % 256) false,
           max22196_frame crc desc.crc_en
             (max22196_ctrl H desc.chip_address H.MAX22196_START_STOP_REG 0) 0 true,
           max22196_frame crc desc.crc_en
             (max22196_ctrl H desc.chip_address H.MAX22196_START_STOP_REG 1)
             (masked_update_spec old2 (H.MAX22196_CNT_MASK ch)
               (no_os_field_prep (H.MAX22196_CNT_MASK ch) 1)) false] ∧
      masked_update_spec old1 (H.MAX22196_CNT_MASK ch)
          (no_os_field_prep (H.MAX22196_CNT_MASK ch) 0) &&& H.MAX22196_CNT_MASK ch = 0 ∧
      masked_update_spec old2 (H.MAX22196_CNT_MASK ch)
          (no_os_field_prep (H.MAX22196_CNT_MASK ch) 1) &&& H.MAX22196_CNT_MASK ch =
        no_os_field_prep (H.MAX22196_CNT_MASK ch) 1 % 256 := by
  have hv := max22196_ch_invalid_of_lt H ch hle hch
  unfold max22196_set_chan_cnt at hret ⊢
  simp only [hv, Bool.false_eq_true, if_false] at hret ⊢
  split_ifs at hret ⊢ with h1 h2 h3
  · exact absurd hret h1
  · exact absurd hret h2
  · exact absurd hret h3
  · have e1 : (max22196_reg_update H crc T desc H.MAX22196_START_STOP_REG
        (H.MAX22196_CNT_MASK ch) (no_os_field_prep (H.MAX22196_CNT_MASK ch) 0)).1 = 0 :=
      not_not.mp h1
    have f1 := max22196_reg_update_fields H crc T desc H.MAX22196_START_STOP_REG
      (H.MAX22196_CNT_MASK ch) (no_os_field_prep (H.MAX22196_CNT_MASK ch) 0)
    have rd1 := max22196_reg_update_ret_of_fail H crc T desc _ _ _ e1
    have rd4 := max22196_reg_update_ret_of_fail H crc T _ _ _ _ hret
    refine ⟨(max22196_reg_read H crc T desc H.MAX22196_START_STOP_REG 0).2.1,
      (max22196_reg_read H crc T
        (max22196_reg_write H crc T
          (max22196_reg_write H crc T
            (max22196_reg_update H crc T desc H.MAX22196_START_STOP_REG
              (H.MAX22196_CNT_MASK ch) (no_os_field_prep (H.MAX22196_CNT_MASK ch) 0)).2
            (H.MAX22196_CNT_LSB_REG ch) (lsb % 256)).2
          (H.MAX22196_CNT_MSB_REG ch) (msb % 256)).2
        H.MAX22196_START_STOP_REG 0).2.1, ?_, ?_, ?_⟩
    · rw [max22196_reg_update_log, max22196_update_msgs_of_ok _ _ _ _ _ _ _ rd4,
        (max22196_reg_write_fields _ _ _ _ _ _).1, (max22196_reg_write_fields _ _ _ _ _ _).2,
        (max22196_reg_write_fields _ _ _ _ _ _).1, (max22196_reg_write_fields _ _ _ _ _ _).2,
        max22196_reg_write_log, max22196_reg_write_log,
        (max22196_reg_write_fields _ _ _ _ _ _).1, (max22196_reg_write_fields _ _ _ _ _ _).2,
        f1.1, f1.2, max22196_reg_update_log,
        max22196_update_msgs_of_ok _ _ _ _ _ _ _ rd1]
      simp only [List.append_assoc, List.cons_append, List.nil_append, Nat.mod_mod]
    · rw [masked_update_spec_and_mask, field_prep_zero]
      simp
    · rw [masked_update_spec_and_mask, field_prep_and_mask]

/-- Witness of C12: channel 2 of the eight-channel register map, counter bytes
`0x12` and `0x34`, start/stop register read as `0x5A`: six messages, the
count bit of channel 2 (`0x04`) cleared in the second and set in the last. -/
theorem max22196_set_chan_cnt_sequence_witness :
    (max22196_h_example.MAX22196_CHANNELS ≤ 4294967296 ∧
     2 < max22196_h_example.MAX22196_CHANNELS ∧
     (max22196_set_chan_cnt max22196_h_example crc_example platform_const
        (max22196_desc_example false [0, 0x5A, 0]) 2 0x12 0x34).1 = 0) ∧
    (max22196_set_chan_cnt max22196_h_example crc_example platform_const
        (max22196_desc_example false [0, 0x5A, 0]) 2 0x12 0x34).2.comm_desc.log.length = 6 ∧
    (max22196_set_chan_cnt max22196_h_example crc_example platform_const
        (max22196_desc_example false [0, 0x5A, 0]) 2 0x12 0x34).2.comm_desc.log =
      [max22196_frame crc_example false 0x5E 0 true,
       max22196_frame crc_example false 0x5F 0x5A false,
       max22196_frame crc_example false 0x69 0x34 false,
       max22196_frame crc_example false 0x6B 0x12 false,
       max22196_frame crc_example false 0x5E 0 true,
       max22196_frame crc_example false 0x5F 0x5E false] :=
  have h := max22196_set_chan_cnt_sequence max22196_h_example crc_example platform_const
    (max22196_desc_example false [0, 0x5A, 0]) 2 0x12 0x34 (by decide) (by decide) (by decide)
  ⟨by decide,
   h.elim fun _ h1 => h1.elim fun _ h2 => (congrArg List.length h2.1).trans rfl,
   by decide⟩

/-! ## C17: one exchange per register access, errors passed on -/

/-- C17. `max22196_reg_write`, `max22196_reg_read`, `max14906_reg_write` and
`max14906_reg_read` hand the transport exactly one message per call.  A write
returns the code of that exchange; a read whose exchange returns a non-zero code
returns that code, and every read that returns non-zero leaves `*val` as it
was.  `max22196_reg_update` and `max14906_reg_update` whose read returns non-zero
return the same code after that single read message: no write is issued. -/
theorem reg_access_single_exchange {β γ : Type}
    (H : max22196_h) (crc : crc_engine) (T : spi_platform β) (desc : max22196_desc β)
    (reg val out mask : Nat)
    (H' : max14906_h) (T' : spi_platform γ) (desc' : max14906_desc γ)
    (addr val' out' mask' : Nat) :
    ((max22196_reg_write H crc T desc reg val).2.comm_desc.log =
        desc.comm_desc.log ++
          [max22196_frame crc desc.crc_en (max22196_ctrl H desc.chip_address reg 1)
            (val % 256) false] ∧
      (max22196_reg_write H crc T desc reg val).1 =
        (T desc.comm_desc.bus
          (max22196_frame crc desc.crc_en (max22196_ctrl H desc.chip_address reg 1)
            (val % 256) false)).ret ∧
      (max22196_reg_read H crc T desc reg out).2.2.comm_desc.log =
        desc.comm_desc.log ++
          [max22196_frame crc desc.crc_en (max22196_ctrl H desc.chip_address reg 0) 0 true] ∧
      ((T desc.comm_desc.bus
          (max22196_frame crc desc.crc_en (max22196_ctrl H desc.chip_address reg 0) 0
            true)).ret ≠ 0 →
        (max22196_reg_read H crc T desc reg out).1 =
          (T desc.comm_desc.bus
            (max22196_frame crc desc.crc_en (max22196_ctrl H desc.chip_address reg 0) 0
              true)).ret) ∧
      ((max22196_reg_read H crc T desc reg out).1 ≠ 0 →
        (max22196_reg_read H crc T desc reg out).2.1 = out) ∧
      ((max22196_reg_read H crc T desc reg 0).1 ≠ 0 →
        (max22196_reg_update H crc T desc reg mask val).1 =
          (max22196_reg_read H crc T desc reg 0).1 ∧
        (max22196_reg_update H crc T desc reg mask val).2.comm_desc.log =
          desc.comm_desc.log ++
            [max22196_frame crc desc.crc_en (max22196_ctrl H desc.chip_address reg 0) 0
              true])) ∧
    ((max14906_reg_write H' T' desc' addr val').2.comm_desc.log =
        desc'.comm_desc.log ++
          [max14906_frame (max14906_ctrl H' desc'.chip_address addr 1) (val' % 256) false] ∧
      (max14906_reg_write H' T' desc' addr val').1 =
        (T' desc'.comm_desc.bus
          (max14906_frame (max14906_ctrl H' desc'.chip_address addr 1) (val' % 256)
            false)).ret ∧
      (max14906_reg_read H' T' desc' addr out').2.2.comm_desc.log =
        desc'.comm_desc.log ++
          [max14906_frame (max14906_ctrl H' desc'.chip_address addr 0) desc'.buff.b1 true] ∧
      ((T' desc'.comm_desc.bus
          (max14906_frame (max14906_ctrl H' desc'.chip_address addr 0) desc'.buff.b1
            true)).ret ≠ 0 →
        (max14906_reg_read H' T' desc' addr out').1 =
          (T' desc'.comm_desc.bus
            (max14906_frame (max14906_ctrl H' desc'.chip_address addr 0) desc'.buff.b1
              true)).ret) ∧
      ((max14906_reg_read H' T' desc' addr out').1 ≠ 0 →
        (max14906_reg_read H' T' desc' addr out').2.1 = out') ∧
      ((max14906_reg_read H' T' desc' addr 0).1 ≠ 0 →
        (max14906_reg_update H' T' desc' addr mask' val').1 =
          (max14906_reg_read H' T' desc' addr 0).1 ∧
        (max14906_reg_update H' T' desc' addr mask' val').2.comm_desc.log =
          desc'.comm_desc.log ++
            [max14906_frame (max14906_ctrl H' desc'.chip_address addr 0) desc'.buff.b1
              true])) := by
  refine ⟨⟨max22196_reg_write_log H crc T desc reg val,
      max22196_reg_write_ret H crc T desc reg val,
      max22196_reg_read_log H crc T desc reg out,
      max22196_reg_read_ret_of_fail H crc T desc reg out,
      max22196_reg_read_val_of_fail H crc T desc reg out, ?_⟩,
    ⟨max14906_reg_write_log H' T' desc' addr val',
      max14906_reg_write_ret H' T' desc' addr val',
      max14906_reg_read_log H' T' desc' addr out',
      max14906_reg_read_ret_of_fail H' T' desc' addr out',
      max14906_reg_read_val_of_fail H' T' desc' addr out', ?_⟩⟩
  · intro h
    rw [max22196_reg_update_of_fail H crc T desc reg mask val h]
    exact ⟨rfl, max22196_reg_read_log H crc T desc reg 0⟩
  · intro h
    rw [max14906_reg_update_of_fail H' T' desc' addr mask' val' h]
    exact ⟨rfl, max14906_reg_read_log H' T' desc' addr 0⟩

/-- Evaluation of C17 on a transport whose every exchange fails with `-5`: read
and update return `-5` after one message, the read leaves `*val = 0x77`. -/
theorem reg_access_single_exchange_witness :
    (max22196_reg_read max22196_h_example crc_example (platform_fail (-5))
        (max22196_desc_example true ()) 3 0x77).1 = -5 ∧
    (max22196_reg_read max22196_h_example crc_example (platform_fail (-5))
        (max22196_desc_example true ()) 3 0x77).2.1 = 0x77 ∧
    (max22196_reg_update max22196_h_example crc_example (platform_fail (-5))
        (max22196_desc_example true ()) 3 0x0F 0xA3).1 = -5 ∧
    (max22196_reg_update max22196_h_example crc_example (platform_fail (-5))
        (max22196_desc_example true ()) 3 0x0F 0xA3).2.comm_desc.log.length = 1 ∧
    (max14906_reg_update max14906_h_example (platform_fail (-5))
        (max14906_desc_example ()) 3 0x0F 0xA3).2.comm_desc.log.length = 1 :=
  have h := reg_access_single_exchange max22196_h_example crc_example (platform_fail (-5))
    (max22196_desc_example true ()) 3 0xA3 0x77 0x0F
    max14906_h_example (platform_fail (-5)) (max14906_desc_example ()) 3 0xA3 0x77 0x0F
  ⟨(h.1.2.2.2.1 (by decide)).trans (by decide),
   h.1.2.2.2.2.1 (by decide),
   ((h.1.2.2.2.2.2 (by decide)).1).trans (by decide),
   (congrArg List.length (h.1.2.2.2.2.2 (by decide)).2).trans rfl,
   (congrArg List.length (h.2.2.2.2.2.2 (by decide)).2).trans rfl⟩

/-! ## C18: no rollback in the counter sequences -/

/-- C18. For a channel below `MAX22196_CHANNELS` whose stop update succeeded: when
the write of the low byte, or after it the write of the high byte, fails in
`max22196_set_chan_cnt`, the function returns that write's result at once; when
the read of the low byte, or after it the read of the high byte, fails in
`max22196_get_chan_cnt`, the function returns that read's code at once.  In each
case the failing message is the last one handed to the transport: after the two
messages of the stop update, whose write clears the channel's count field,
come only the counter accesses; the resume update is not issued and nothing is
written back to `MAX22196_START_STOP_REG`. -/
theorem chan_cnt_no_rollback {β : Type}
    (H : max22196_h) (crc : crc_engine) (T : spi_platform β) (desc : max22196_desc β)
    (ch msb lsb : Nat)
    (hle : H.MAX22196_CHANNELS ≤ 4294967296) (hch : ch < H.MAX22196_CHANNELS)
    (hstop : (max22196_reg_update H crc T desc H.MAX22196_START_STOP_REG
      (H.MAX22196_CNT_MASK ch) (no_os_field_prep (H.MAX22196_CNT_MASK ch) 0)).1 = 0) :
    (max22196_update_msgs H crc T desc H.MAX22196_START_STOP_REG (H.MAX22196_CNT_MASK ch)
        (no_os_field_prep (H.MAX22196_CNT_MASK ch) 0) =
      [max22196_frame crc desc.crc_en
         (max22196_ctrl H desc.chip_address H.MAX22196_START_STOP_REG 0) 0 true,
       max22196_frame crc desc.crc_en
         (max22196_ctrl H desc.chip_address H.MAX22196_START_STOP_REG 1)
         (masked_update_spec
           (max22196_reg_read H crc T desc H.MAX22196_START_STOP_REG 0).2.1
           (H.MAX22196_CNT_MASK ch) (no_os_field_prep (H.MAX22196_CNT_MASK ch) 0)) false] ∧
     masked_update_spec (max22196_reg_read H crc T desc H.MAX22196_START_STOP_REG 0).2.1
         (H.MAX22196_CNT_MASK ch) (no_os_field_prep (H.MAX22196_CNT_MASK ch) 0) &&&
       H.MAX22196_CNT_MASK ch = 0) ∧
    ((max22196_reg_write H crc T
        (max22196_reg_update H crc T desc H.MAX22196_START_STOP_REG
          (H.MAX22196_CNT_MASK ch) (no_os_field_prep (H.MAX22196_CNT_MASK ch) 0)).2
        (H.MAX22196_CNT_LSB_REG ch) (lsb % 256)).1 ≠ 0 →
      (max22196_set_chan_cnt H crc T desc ch msb lsb).1 =
        (max22196_reg_write H crc T
          (max22196_reg_update H crc T desc H.MAX22196_START_STOP_REG
            (H.MAX22196_CNT_MASK ch) (no_os_field_prep (H.MAX22196_CNT_MASK ch) 0)).2
          (H.MAX22196_CNT_LSB_REG ch) (lsb % 256)).1 ∧
      (max22196_set_chan_cnt H crc T desc ch msb lsb).2.comm_desc.log =
        desc.comm_desc.log ++
          max22196_update_msgs H crc T desc H.MAX22196_START_STOP_REG
            (H.MAX22196_CNT_MASK ch) (no_os_field_prep (H.MAX22196_CNT_MASK ch) 0) ++
          [max22196_frame crc desc.crc_en
            (max22196_ctrl H desc.chip_address (H.MAX22196_CNT_LSB_REG ch) 1)
            (lsb % 256) false]) ∧
    ((max22196_reg_write H crc T
        (max22196_reg_update H crc T desc H.MAX22196_START_STOP_REG
          (H.MAX22196_CNT_MASK ch) (no_os_field_prep (H.MAX22196_CNT_MASK ch) 0)).2
        (H.MAX22196_CNT_LSB_REG ch) (lsb % 256)).1 = 0 →
      (max22196_reg_write H crc T
        (max22196_reg_write H crc T
          (max22196_reg_update H crc T desc H.MAX22196_START_STOP_REG
            (H.MAX22196_CNT_MASK ch) (no_os_field_prep (H.MAX22196_CNT_MASK ch) 0)).2
          (H.MAX22196_CNT_LSB_REG ch) (lsb % 256)).2
        (H.MAX22196_CNT_MSB_REG ch) (msb % 256)).1 ≠ 0 →
      (max22196_set_chan_cnt H crc T desc ch msb lsb).1 =
        (max22196_reg_write H crc T
          (max22196_reg_write H crc T
            (max22196_reg_update H crc T desc H.MAX22196_START_STOP_REG
              (H.MAX22196_CNT_MASK ch) (no_os_field_prep (H.MAX22196_CNT_MASK ch) 0)).2
            (H.MAX22196_CNT_LSB_REG ch) (lsb % 256)).2
          (H.MAX22196_CNT_MSB_REG ch) (msb % 256)).1 ∧
      (max22196_set_chan_cnt H crc T desc ch msb lsb).2.comm_desc.log =
        desc.comm_desc.log ++
          max22196_update_msgs H crc T desc H.MAX22196_START_STOP_REG
            (H.MAX22196_CNT_MASK ch) (no_os_field_prep (H.MAX22196_CNT_MASK ch) 0) ++
          [max22196_frame crc desc.crc_en
            (max22196_ctrl H desc.chip_address (H.MAX22196_CNT_LSB_REG ch) 1)
            (lsb % 256) false,
           max22196_frame crc desc.crc_en
            (max22196_ctrl H desc.chip_address (H.MAX22196_CNT_MSB_REG ch) 1)
            (msb % 256) false]) ∧
    ((max22196_reg_read H crc T
        (max22196_reg_update H crc T desc H.MAX22196_START_STOP_REG
          (H.MAX22196_CNT_MASK ch) (no_os_field_prep (H.MAX22196_CNT_MASK ch) 0)).2
        (H.MAX22196_CNT_LSB_REG ch) lsb).1 ≠ 0 →
      (max22196_get_chan_cnt H crc T desc ch msb lsb).1 =
        (max22196_reg_read H crc T
          (max22196_reg_update H crc T desc H.MAX22196_START_STOP_REG
            (H.MAX22196_CNT_MASK ch) (no_os_field_prep (H.MAX22196_CNT_MASK ch) 0)).2
          (H.MAX22196_CNT_LSB_REG ch) lsb).1 ∧
      (max22196_get_chan_cnt H crc T desc ch msb lsb).2.2.2.comm_desc.log =
        desc.comm_desc.log ++
          max22196_update_msgs H crc T desc H.MAX22196_START_STOP_REG
            (H.MAX22196_CNT_MASK ch) (no_os_field_prep (H.MAX22196_CNT_MASK ch) 0) ++
          [max22196_frame crc desc.crc_en
            (max22196_ctrl H desc.chip_address (H.MAX22196_CNT_LSB_REG ch) 0) 0 true]) ∧
    ((max22196_reg_read H crc T
        (max22196_reg_update H crc T desc H.MAX22196_START_STOP_REG
          (H.MAX22196_CNT_MASK ch) (no_os_field_prep (H.MAX22196_CNT_MASK ch) 0)).2
        (H.MAX22196_CNT_LSB_REG ch) lsb).1 = 0 →
      (max22196_reg_read H crc T
        (max22196_reg_read H crc T
          (max22196_reg_update H crc T desc H.MAX22196_START_STOP_REG
            (H.MAX22196_CNT_MASK ch) (no_os_field_prep (H.MAX22196_CNT_MASK ch) 0)).2
          (H.MAX22196_CNT_LSB_REG ch) lsb).2.2
        (H.MAX22196_CNT_MSB_REG ch) msb).1 ≠ 0 →
      (max22196_get_chan_cnt H crc T desc ch msb lsb).1 =
        (max22196_reg_read H crc T
          (max22196_reg_read H crc T
            (max22196_reg_update H crc T desc H.MAX22196_START_STOP_REG
              (H.MAX22196_CNT_MASK ch) (no_os_field_prep (H.MAX22196_CNT_MASK ch) 0)).2
            (H.MAX22196_CNT_LSB_REG ch) lsb).2.2
          (H.MAX22196_CNT_MSB_REG ch) msb).1 ∧
      (max22196_get_chan_cnt H crc T desc ch msb lsb).2.2.2.comm_desc.log =
        desc.comm_desc.log ++
          max22196_update_msgs H crc T desc H.MAX22196_START_STOP_REG
            (H.MAX22196_CNT_MASK ch) (no_os_field_prep (H.MAX22196_CNT_MASK ch) 0) ++
          [max22196_frame crc desc.crc_en
            (max22196_ctrl H desc.chip_address (H.MAX22196_CNT_LSB_REG ch) 0) 0 true,
           max22196_frame crc desc.crc_en
            (max22196_ctrl H desc.chip_address (H.MAX22196_CNT_MSB_REG ch) 0) 0 true]) := by
  have hv := max22196_ch_invalid_of_lt H ch hle hch
  have f1 := max22196_reg_update_fields H crc T desc H.MAX22196_START_STOP_REG
    (H.MAX22196_CNT_MASK ch) (no_os_field_prep (H.MAX22196_CNT_MASK ch) 0)
  have rd1 := max22196_reg_update_ret_of_fail H crc T desc _ _ _ hstop
  refine ⟨⟨max22196_update_msgs_of_ok _ _ _ _ _ _ _ rd1, ?_⟩, ?_, ?_, ?_, ?_⟩
  · rw [masked_update_spec_and_mask, field_prep_zero]
    simp
  · intro h2
    unfold max22196_set_chan_cnt
    simp only [hv, Bool.false_eq_true, if_false, hstop, ne_eq, not_true_eq_false, h2,
      not_false_eq_true, if_true, true_and]
    rw [max22196_reg_write_log, f1.1, f1.2, max22196_reg_update_log]
    simp only [Nat.mod_mod]
  · intro h2 h3
    unfold max22196_set_chan_cnt
    simp only [hv, Bool.false_eq_true, if_false, hstop, ne_eq, not_true_eq_false, h2, h3,
      not_false_eq_true, if_true, true_and]
    rw [max22196_reg_write_log, (max22196_reg_write_fields _ _ _ _ _ _).1,
      (max22196_reg_write_fields _ _ _ _ _ _).2, max22196_reg_write_log, f1.1, f1.2,
      max22196_reg_update_log]
    simp only [Nat.mod_mod, List.append_assoc, List.cons_append, List.nil_append]
  · intro h2
    unfold max22196_get_chan_cnt
    simp only [hv, Bool.false_eq_true, if_false, hstop, ne_eq, not_true_eq_false, h2,
      not_false_eq_true, if_true, true_and]
    rw [max22196_reg_read_log, f1.1, f1.2, max22196_reg_update_log]
  · intro h2 h3
    unfold max22196_get_chan_cnt
    simp only [hv, Bool.false_eq_true, if_false, hstop, ne_eq, not_true_eq_false, h2, h3,
      not_false_eq_true, if_true, true_and]
    rw [max22196_reg_read_log, (max22196_reg_read_fields _ _ _ _ _ _).1,
      (max22196_reg_read_fields _ _ _ _ _ _).2, max22196_reg_read_log, f1.1, f1.2,
      max22196_reg_update_log]
    simp only [List.append_assoc, List.cons_append, List.nil_append]

/-- Witness of C18: on a transport whose third exchange fails with `-5`, both
counter functions return `-5` after three messages, the last write to the
start/stop register (`0x5F`) being the one that cleared the count bit. -/
theorem chan_cnt_no_rollback_witness :
    (max22196_h_example.MAX22196_CHANNELS ≤ 4294967296 ∧
     2 < max22196_h_example.MAX22196_CHANNELS ∧
     (max22196_reg_update max22196_h_example crc_example (platform_fail_at 2)
        (max22196_desc_example false 0) max22196_h_example.MAX22196_START_STOP_REG
        (max22196_h_example.MAX22196_CNT_MASK 2)
        (no_os_field_prep (max22196_h_example.MAX22196_CNT_MASK 2) 0)).1 = 0) ∧
    (max22196_set_chan_cnt max22196_h_example crc_example (platform_fail_at 2)
        (max22196_desc_example false 0) 2 0x12 0x34).1 = -5 ∧
    (max22196_set_chan_cnt max22196_h_example crc_example (platform_fail_at 2)
        (max22196_desc_example false 0) 2 0x12 0x34).2.comm_desc.log =
      [max22196_frame crc_example false 0x5E 0 true,
       max22196_frame crc_example false 0x5F 0x5A false,
       max22196_frame crc_example false 0x69 0x34 false] ∧
    (max22196_get_chan_cnt max22196_h_example crc_example (platform_fail_at 2)
        (max22196_desc_example false 0) 2 0x12 0x34).1 = -5 ∧
    (max22196_get_chan_cnt max22196_h_example crc_example (platform_fail_at 2)
        (max22196_desc_example false 0) 2 0x12 0x34).2.2.2.comm_desc.log =
      [max22196_frame crc_example false 0x5E 0 true,
       max22196_frame crc_example false 0x5F 0x5A false,
       max22196_frame crc_example false 0x68 0 true] :=
  have h := chan_cnt_no_rollback max22196_h_example crc_example (platform_fail_at 2)
    (max22196_desc_example false 0) 2 0x12 0x34 (by decide) (by decide) (by decide)
  ⟨by decide,
   (h.2.1 (by decide)).1.trans (by decide),
   (h.2.1 (by decide)).2.trans (by decide),
   (h.2.2.2.1 (by decide)).1.trans (by decide),
   (h.2.2.2.1 (by decide)).2.trans (by decide)⟩

/-! ## C20: chip address and CRC flag are never modified -/

theorem max22196_set_chan_cnt_fields {β : Type} (H : max22196_h) (crc : crc_engine)
    (T : spi_platform β) (desc : max22196_desc β) (ch msb lsb : Nat) :
    (max22196_set_chan_cnt H crc T desc ch msb lsb).2.crc_en = desc.crc_en ∧
    (max22196_set_chan_cnt H crc T desc ch msb lsb).2.chip_address = desc.chip_address := by
  have f1 := max22196_reg_update_fields H crc T desc H.MAX22196_START_STOP_REG
    (H.MAX22196_CNT_MASK ch) (no_os_field_prep (H.MAX22196_CNT_MASK ch) 0)
  have f2 := max22196_reg_write_fields H crc T
    (max22196_reg_update H crc T desc H.MAX22196_START_STOP_REG
      (H.MAX22196_CNT_MASK ch) (no_os_field_prep (H.MAX22196_CNT_MASK ch) 0)).2
    (H.MAX22196_CNT_LSB_REG ch) (lsb % 256)
  have f3 := max22196_reg_write_fields H crc T
    (max22196_reg_write H crc T
      (max22196_reg_update H crc T desc H.MAX22196_START_STOP_REG
        (H.MAX22196_CNT_MASK ch) (no_os_field_prep (H.MAX22196_CNT_MASK ch) 0)).2
      (H.MAX22196_CNT_LSB_REG ch) (lsb % 256)).2
    (H.MAX22196_CNT_MSB_REG ch) (msb % 256)
  have f4 := max22196_reg_update_fields H crc T
    (max22196_reg_write H crc T
      (max22196_reg_write H crc T
        (max22196_reg_update H crc T desc H.MAX22196_START_STOP_REG
          (H.MAX22196_CNT_MASK ch) (no_os_field_prep (H.MAX22196_CNT_MASK ch) 0)).2
        (H.MAX22196_CNT_LSB_REG ch) (lsb % 256)).2
      (H.MAX22196_CNT_MSB_REG ch) (msb % 256)).2
    H.MAX22196_START_STOP_REG (H.MAX22196_CNT_MASK ch)
    (no_os_field_prep (H.MAX22196_CNT_MASK ch) 1)
  unfold max22196_set_chan_cnt
  simp only []
  split_ifs
  · exact ⟨rfl, rfl⟩
  · exact f1
  · exact ⟨f2.1.trans f1.1, f2.2.trans f1.2⟩
  · exact ⟨f3.1.trans (f2.1.trans f1.1), f3.2.trans (f2.2.trans f1.2)⟩
  · exact ⟨f4.1.trans (f3.1.trans (f2.1.trans f1.1)),
      f4.2.trans (f3.2.trans (f2.2.trans f1.2))⟩

theorem max22196_get_chan_cnt_fields {β : Type} (H : max22196_h) (crc : crc_engine)
    (T : spi_platform β) (desc : max22196_desc β) (ch msb lsb : Nat) :
    (max22196_get_chan_cnt H crc T desc ch msb lsb).2.2.2.crc_en = desc.crc_en ∧
    (max22196_get_chan_cnt H crc T desc ch msb lsb).2.2.2.chip_address =
      desc.chip_address := by
  have f1 := max22196_reg_update_fields H crc T desc H.MAX22196_START_STOP_REG
    (H.MAX22196_CNT_MASK ch) (no_os_field_prep (H.MAX22196_CNT_MASK ch) 0)
  have f2 := max22196_reg_read_fields H crc T
    (max22196_reg_update H crc T desc H.MAX22196_START_STOP_REG
      (H.MAX22196_CNT_MASK ch) (no_os_field_prep (H.MAX22196_CNT_MASK ch) 0)).2
    (H.MAX22196_CNT_LSB_REG ch) lsb
  have f3 := max22196_reg_read_fields H crc T
    (max22196_reg_read H crc T
      (max22196_reg_update H crc T desc H.MAX22196_START_STOP_REG
        (H.MAX22196_CNT_MASK ch) (no_os_field_prep (H.MAX22196_CNT_MASK ch) 0)).2
      (H.MAX22196_CNT_LSB_REG ch) lsb).2.2
    (H.MAX22196_CNT_MSB_REG ch) msb
  have f4 := max22196_reg_update_fields H crc T
    (max22196_reg_read H crc T
      (max22196_reg_read H crc T
        (max22196_reg_update H crc T desc H.MAX22196_START_STOP_REG
          (H.MAX22196_CNT_MASK ch) (no_os_field_prep (H.MAX22196_CNT_MASK ch) 0)).2
        (H.MAX22196_CNT_LSB_REG ch) lsb).2.2
      (H.MAX22196_CNT_MSB_REG ch) msb).2.2
    H.MAX22196_START_STOP_REG (H.MAX22196_CNT_MASK ch)
    (no_os_field_prep (H.MAX22196_CNT_MASK ch) 1)
  unfold max22196_get_chan_cnt
  simp only []
  split_ifs
  · exact ⟨rfl, rfl⟩
  · exact f1
  · exact ⟨f2.1.trans f1.1, f2.2.trans f1.2⟩
  · exact ⟨f3.1.trans (f2.1.trans f1.1), f3.2.trans (f2.2.trans f1.2)⟩
  · exact ⟨f4.1.trans (f3.1.trans (f2.1.trans f1.1)),
      f4.2.trans (f3.2.trans (f2.2.trans f1.2))⟩

theorem max14906_ch_func_chip {β : Type} (H : max14906_h) (T : spi_platform β)
    (desc : max14906_desc β) (ch function : Nat) :
    (max14906_ch_func H T desc ch function).2.chip_address = desc.chip_address := by
  unfold max14906_ch_func
  simp only []
  split_ifs
  · exact max14906_reg_update_chip H T desc _ _ _
  · rw [max14906_reg_update_chip, max14906_reg_update_chip]
  · exact max14906_reg_update_chip H T desc _ _ _

/-- C20. Whether they succeed or fail, `max22196_reg_read`, `max22196_reg_write`,
`max22196_reg_update`, `max22196_chan_cfg`, `max22196_set_chan_cnt` and
`max22196_get_chan_cnt` return the descriptor with `chip_address` and `crc_en`
as they were, and `max14906_reg_read`, `max14906_reg_write`,
`max14906_reg_update` and `max14906_ch_func` return it with `chip_address` as it
was (the MAX14906 code has no CRC flag); of the descriptor's own fields only the
frame buffer can differ. -/
theorem descriptor_configuration_preserved {β γ : Type}
    (H : max22196_h) (crc : crc_engine) (T : spi_platform β) (desc : max22196_desc β)
    (reg val out mask ch hi_thr source curr flt_en delay msb lsb : Nat)
    (H' : max14906_h) (T' : spi_platform γ) (desc' : max14906_desc γ)
    (addr val' out' mask' ch' function : Nat) :
    (((max22196_reg_read H crc T desc reg out).2.2.crc_en = desc.crc_en ∧
      (max22196_reg_read H crc T desc reg out).2.2.chip_address = desc.chip_address) ∧
     ((max22196_reg_write H crc T desc reg val).2.crc_en = desc.crc_en ∧
      (max22196_reg_write H crc T desc reg val).2.chip_address = desc.chip_address) ∧
     ((max22196_reg_update H crc T desc reg mask val).2.crc_en = desc.crc_en ∧
      (max22196_reg_update H crc T desc reg mask val).2.chip_address = desc.chip_address) ∧
     ((max22196_chan_cfg H crc T desc ch hi_thr source curr flt_en delay).2.crc_en =
        desc.crc_en ∧
      (max22196_chan_cfg H crc T desc ch hi_thr source curr flt_en delay).2.chip_address =
        desc.chip_address) ∧
     ((max22196_set_chan_cnt H crc T desc ch msb lsb).2.crc_en = desc.crc_en ∧
      (max22196_set_chan_cnt H crc T desc ch msb lsb).2.chip_address = desc.chip_address) ∧
     ((max22196_get_chan_cnt H crc T desc ch msb lsb).2.2.2.crc_en = desc.crc_en ∧
      (max22196_get_chan_cnt H crc T desc ch msb lsb).2.2.2.chip_address =
        desc.chip_address)) ∧
    ((max14906_reg_read H' T' desc' addr out').2.2.chip_address = desc'.chip_address ∧
     (max14906_reg_write H' T' desc' addr val').2.chip_address = desc'.chip_address ∧
     (max14906_reg_update H' T' desc' addr mask' val').2.chip_address =
       desc'.chip_address ∧
     (max14906_ch_func H' T' desc' ch' function).2.chip_address = desc'.chip_address) := by
  refine ⟨⟨max22196_reg_read_fields H crc T desc reg out,
      max22196_reg_write_fields H crc T desc reg val,
      max22196_reg_update_fields H crc T desc reg mask val, ?_,
      max22196_set_chan_cnt_fields H crc T desc ch msb lsb,
      max22196_get_chan_cnt_fields H crc T desc ch msb lsb⟩,
    ⟨max14906_reg_read_chip H' T' desc' addr out',
      max14906_reg_write_chip H' T' desc' addr val',
      max14906_reg_update_chip H' T' desc' addr mask' val',
      max14906_ch_func_chip H' T' desc' ch' function⟩⟩
  unfold max22196_chan_cfg
  simp only []
  split_ifs
  · exact ⟨rfl, rfl⟩
  · exact max22196_reg_write_fields H crc T desc _ _

/-! ## C15: the list of available delays -/

/-- C15. For every device state, buffer content, buffer length and channel,
`max22190_iio_read_filter_available` leaves the text
"50 100 400 800 1800 3200 12800 20000 " in the buffer, returns its length 37 and
returns the device as it was: it touches neither the driver nor the transport. -/
theorem max22190_iio_read_filter_available_text {σ : Type} (dev : σ) (buf : List Char)
    (len ch : Nat) :
    max22190_iio_read_filter_available dev buf len ch =
      (37, "50 100 400 800 1800 3200 12800 20000 ".data, dev) ∧
    ("50 100 400 800 1800 3200 12800 20000 ".data).length = 37 := by
  constructor
  · rfl
  · rfl

/-! ## C14: values outside the delay table are refused before any access -/

theorem delay_search_not_mem (val : Nat) (h : val ∉ max22190_delay_avail) :
    delay_search val (max22190_delay_avail.length + 1) 0 = none := by
  simp only [max22190_delay_avail, List.mem_cons, List.mem_singleton, not_or,
    List.not_mem_nil, not_false_eq_true, and_true] at h
  obtain ⟨h0, h1, h2, h3, h4, h5, h6, h7⟩ := h
  simp [delay_search, max22190_delay_avail, h0, h1, h2, h3, h4, h5, h6, h7]

theorem delay_search_mem (val i : Nat) (h : max22190_delay_avail.get? i = some val) :
    delay_search val (max22190_delay_avail.length + 1) 0 = some i := by
  have hi : i < 8 := by
    by_contra hc
    have : max22190_delay_avail.get? i = none := by
      apply List.get?_eq_none.mpr
      simp [max22190_delay_avail]; omega
    rw [this] at h; cases h
  interval_cases i <;>
    simp [max22190_delay_avail] at h <;>
    subst h <;>
    decide

theorem max22190_iio_write_filter_delay_of_not_mem {σ : Type}
    (H : max22190_h) (D : max22190_driver σ) (L : iio_lib) (desc : σ)
    (buf : List Char) (ch val : Nat) (v : Int)
    (hparse : L.iio_parse_value buf = some v)
    (h : uint32_of_int32 v ∉ max22190_delay_avail) :
    max22190_iio_write_filter_delay H D L desc buf ch val = (-EINVAL, desc) := by
  simp only [max22190_iio_write_filter_delay, hparse, delay_search_not_mem _ h]

theorem max22190_iio_write_filter_delay_of_mem {σ : Type}
    (H : max22190_h) (D : max22190_driver σ) (L : iio_lib) (desc : σ)
    (buf : List Char) (ch val i : Nat) (v : Int)
    (hparse : L.iio_parse_value buf = some v)
    (h : max22190_delay_avail.get? i = some (uint32_of_int32 v)) :
    max22190_iio_write_filter_delay H D L desc buf ch val =
      D.max22190_reg_update desc (H.MAX22190_FILTER_IN_REG ch) H.MAX22190_DELAY_MASK
        (no_os_field_prep H.MAX22190_DELAY_MASK i) := by
  simp only [max22190_iio_write_filter_delay, hparse, delay_search_mem _ i h]

/-- C14. When the parsed integer, taken as the `uint32_t` the code compares, is
none of the eight entries of `max22190_delay_avail`,
`max22190_iio_write_filter_delay` returns `-EINVAL` and the device state is
returned as it was, whatever the driver functions are: none of them is called,
so no exchange is made.  When the parsed integer is entry `i` of the table the
search does not return `-EINVAL`: the result is that of the masked update of the
delay field with the index `i`. -/
theorem max22190_iio_write_filter_delay_search {σ : Type}
    (H : max22190_h) (D : max22190_driver σ) (L : iio_lib) (desc : σ)
    (buf : List Char) (ch val : Nat) (v : Int)
    (hparse : L.iio_parse_value buf = some v) :
    (uint32_of_int32 v ∉ max22190_delay_avail →
      max22190_iio_write_filter_delay H D L desc buf ch val = (-EINVAL, desc)) ∧
    (∀ i, max22190_delay_avail.get? i = some (uint32_of_int32 v) →
      max22190_iio_write_filter_delay H D L desc buf ch val =
        D.max22190_reg_update desc (H.MAX22190_FILTER_IN_REG ch) H.MAX22190_DELAY_MASK
          (no_os_field_prep H.MAX22190_DELAY_MASK i)) := by
  constructor
  · intro h
    exact max22190_iio_write_filter_delay_of_not_mem H D L desc buf ch val v hparse h
  · intro i h
    exact max22190_iio_write_filter_delay_of_mem H D L desc buf ch val i v hparse h

/-- Witness of C14: the text "401" is refused with no exchange on the register
file, and so is "-50"; the text "400" is entry 2 of the table and is not
refused. -/
theorem max22190_iio_write_filter_delay_search_witness :
    (iio_lib_decimal.iio_parse_value "401".data = some 401 ∧
     iio_lib_decimal.iio_parse_value "-50".data = some (-50) ∧
     iio_lib_decimal.iio_parse_value "400".data = some 400) ∧
    (max22190_iio_write_filter_delay max22190_h_example regfile_driver iio_lib_decimal
        regfile_example "401".data 2 0).1 = -EINVAL ∧
    (max22190_iio_write_filter_delay max22190_h_example regfile_driver iio_lib_decimal
        regfile_example "401".data 2 0).2.exchanges = 0 ∧
    (max22190_iio_write_filter_delay max22190_h_example regfile_driver iio_lib_decimal
        regfile_example "-50".data 2 0).1 = -EINVAL ∧
    (max22190_iio_write_filter_delay max22190_h_example regfile_driver iio_lib_decimal
        regfile_example "400".data 2 0).1 = 0 :=
  have h := max22190_iio_write_filter_delay_search max22190_h_example regfile_driver
    iio_lib_decimal regfile_example "401".data 2 0 401 (by decide)
  have h' := max22190_iio_write_filter_delay_search max22190_h_example regfile_driver
    iio_lib_decimal regfile_example "-50".data 2 0 (-50) (by decide)
  have h'' := max22190_iio_write_filter_delay_search max22190_h_example regfile_driver
    iio_lib_decimal regfile_example "400".data 2 0 400 (by decide)
  ⟨by decide,
   congrArg Prod.fst (h.1 (by decide)),
   congrArg (fun r => r.2.exchanges) (h.1 (by decide)),
   congrArg Prod.fst (h'.1 (by decide)),
   congrArg Prod.fst (h''.2 2 (by decide))⟩

/-! ## C16: channel enumeration at setup -/

theorem set_append_length {α : Type} (pre : List α) (x y : α) (rest : List α) :
    (pre ++ x :: rest).set pre.length y = pre ++ y :: rest := by
  induction pre with
  | nil => rfl
  | cons a t ih => simp [List.set, ih]

theorem setup_count_foldl (p : Nat → Bool) (l : List Nat) (acc : Nat) :
    l.foldl (fun enabled_ch i => if p i then enabled_ch + 1 else enabled_ch) acc =
      acc + (l.filter p).length := by
  induction l generalizing acc with
  | nil => simp
  | cons a t ih =>
    simp only [List.foldl_cons, List.filter_cons]
    cases hp : p a
    · simp [ih]
    · simp [ih]; omega

theorem setup_fill_foldl (p : Nat → Bool) (l : List Nat) (pre : List iio_channel) (m : Nat)
    (hm : (l.filter p).length ≤ m) :
    l.foldl
      (fun (st : List iio_channel × Nat) i =>
        if p i then
          (st.1.set st.2 { MAX22190_CHANNEL i with
              attributes := some "max22190_attrs", ch_out := 0 },
           st.2 + 1)
        else st)
      (pre ++ List.replicate m iio_channel_zero, pre.length) =
    (pre ++ (l.filter p).map max22190_channel_of ++
        List.replicate (m - (l.filter p).length) iio_channel_zero,
      pre.length + (l.filter p).length) := by
  induction l generalizing pre m with
  | nil => simp
  | cons a t ih =>
    simp only [List.foldl_cons, List.filter_cons]
    cases hp : p a
    · simp only [Bool.false_eq_true, if_false]
      simp only [List.filter_cons, hp, Bool.false_eq_true, if_false] at hm
      exact ih pre m hm
    · simp only [if_true]
      simp only [List.filter_cons, hp, if_true, List.length_cons] at hm
      obtain ⟨m', rfl⟩ : ∃ m', m = m' + 1 := ⟨m - 1, by omega⟩
      rw [List.replicate_succ, set_append_length]
      have h := ih (pre ++ [max22190_channel_of a]) m' (by omega)
      simp only [List.length_append, List.length_singleton, List.append_assoc,
        List.singleton_append] at h
      simp only [max22190_channel_of] at h ⊢
      rw [h]
      simp only [List.map_cons, List.length_cons, List.append_assoc, List.cons_append,
        Nat.add_sub_add_right, max22190_channel_of]
      congr 1
      omega

theorem count_true_eq_filter_range (l : List Bool) :
    ((List.range l.length).filter (fun i => l.getD i false)).length = l.count true := by
  induction l with
  | nil => simp
  | cons b t ih =>
    have hmap : (List.filter (fun i => (b :: t).getD i false)
          (List.map Nat.succ (List.range t.length)))
        = List.map Nat.succ (List.filter (fun i => t.getD i false) (List.range t.length)) := by
      rw [List.filter_map]
      rfl
    rw [List.length_cons, List.range_succ_eq_map, List.filter_cons, hmap]
    cases b
    · simp only [List.getD_cons_zero, Bool.false_eq_true, if_false, List.length_map, ih]
      simp
    · simp only [List.getD_cons_zero, if_true, List.length_cons, List.length_map, ih]
      simp

/-- C16. For a boolean array `ch_enabled` of length `MAX22190_CHANNELS`, when the
allocation succeeds `max22190_iio_setup_channels` returns 0, sets `num_ch` to
the number of true entries and `channels` to the descriptors of the enabled
indices in ascending order: the list of enabled indices has that many entries,
is strictly ascending (so without repetition), contains exactly the indices
below `MAX22190_CHANNELS` whose entry is true, and the descriptor of index `i`
has `channel = address = i` and points to `max22190_attrs`. -/
theorem max22190_iio_setup_channels_enumerates (N : Nat) (dev : iio_device)
    (ch_enabled : List Bool) (hlen : ch_enabled.length = N) :
    max22190_iio_setup_channels N true dev ch_enabled =
      (0, { channels :=
              ((List.range N).filter (fun i => ch_enabled.getD i false)).map
                max22190_channel_of,
            num_ch := ch_enabled.count true }) ∧
    ((List.range N).filter (fun i => ch_enabled.getD i false)).length =
      ch_enabled.count true ∧
    ((List.range N).filter (fun i => ch_enabled.getD i false)).Pairwise (· < ·) ∧
    (∀ i, i ∈ (List.range N).filter (fun i => ch_enabled.getD i false) ↔
      i < N ∧ ch_enabled.getD i false = true) ∧
    (∀ i, (max22190_channel_of i).channel = i ∧ (max22190_channel_of i).address = i ∧
      (max22190_channel_of i).attributes = some "max22190_attrs") := by
  have hcount : ((List.range N).filter (fun i => ch_enabled.getD i false)).length =
      ch_enabled.count true := by
    rw [← hlen]; exact count_true_eq_filter_range ch_enabled
  refine ⟨?_, hcount, ?_, ?_, ?_⟩
  · unfold max22190_iio_setup_channels setup_count setup_fill
    simp only [Bool.true_eq_false, if_false]
    rw [setup_count_foldl, Nat.zero_add]
    have h := setup_fill_foldl (fun i => ch_enabled.getD i false) (List.range N) []
      ((List.range N).filter (fun i => ch_enabled.getD i false)).length (le_refl _)
    simp only [List.nil_append, List.length_nil, Nat.zero_add, Nat.sub_self,
      List.replicate_zero, List.append_nil] at h
    rw [h, hcount]
  · exact List.Pairwise.filter _ (List.pairwise_lt_range N)
  · intro i
    simp [List.mem_filter, List.mem_range]
  · intro i
    exact ⟨rfl, rfl, rfl⟩

/-- Witness of C16: with channels 0, 3, 4 and 7 of eight enabled, four
descriptors are built, for the indices 0, 3, 4, 7 in this order. -/
theorem max22190_iio_setup_channels_enumerates_witness :
    [true, false, false, true, true, false, false, true].length = 8 ∧
    (max22190_iio_setup_channels 8 true { channels := [], num_ch := 0 }
        [true, false, false, true, true, false, false, true]).2.num_ch = 4 ∧
    (max22190_iio_setup_channels 8 true { channels := [], num_ch := 0 }
        [true, false, false, true, true, false, false, true]).2.channels =
      [max22190_channel_of 0, max22190_channel_of 3, max22190_channel_of 4,
       max22190_channel_of 7] :=
  have h := max22190_iio_setup_channels_enumerates 8 { channels := [], num_ch := 0 }
    [true, false, false, true, true, false, false, true] (by decide)
  ⟨by decide,
   (congrArg (fun r => r.2.num_ch) h.1).trans (by decide),
   (congrArg (fun r => r.2.channels) h.1).trans (by decide)⟩

/-! ## C13: filter delay round trip over the register file -/

theorem field_get_masked_update (old M v : Nat) :
    no_os_field_get M (masked_update_spec old M v) =
      ((v &&& M) % 256) >>> no_os_find_first_set_bit M := by
  unfold no_os_field_get
  rw [masked_update_spec_and_mask]

theorem delay_field_round_trip (k i : Nat) (hk : k ≤ 5) (hi : i < 8) :
    ((no_os_field_prep (7 <<< k) i &&& (7 <<< k)) % 256) >>>
      no_os_find_first_set_bit (7 <<< k) = i := by
  interval_cases k <;> interval_cases i <;> decide

theorem delay_avail_get (i : Nat) (hi : i < 8) :
    max22190_delay_avail.get? i =
      some (uint32_of_int32 ((max22190_delay_avail.getD i 0 : Nat) : Int)) ∧
    max22190_delay_avail.get? i = some (max22190_delay_avail.getD i 0) ∧
    int32_of_uint32 (max22190_delay_avail.getD i 0) =
      ((max22190_delay_avail.getD i 0 : Nat) : Int) := by
  interval_cases i <;> decide

/-- C13. Over the register-file stub, with the delay field three bits wide
inside the register byte (`MAX22190_DELAY_MASK = 7 << k`, `k <= 5`), for every
channel and every table index `i` below 8: storing `filter_delay` with a text
the library parses as `max22190_delay_avail[i]` returns 0; the delay field of
`MAX22190_FILTER_IN_REG(ch)` then holds the index `i`; every bit of the register
outside the mask and every other register keep their value; and showing
`filter_delay` on the same channel hands `max22190_delay_avail[i]` to the
formatter. -/
theorem filter_delay_round_trip (H : max22190_h) (L : iio_lib) (d : regfile)
    (buf buf' : List Char) (len ch val i k : Nat)
    (hk : k ≤ 5) (hM : H.MAX22190_DELAY_MASK = 7 <<< k) (hi : i < 8)
    (hparse : L.iio_parse_value buf = some ((max22190_delay_avail.getD i 0 : Nat) : Int)) :
    (max22190_iio_write_filter_delay H regfile_driver L d buf ch val).1 = 0 ∧
    no_os_field_get H.MAX22190_DELAY_MASK
      ((max22190_iio_write_filter_delay H regfile_driver L d buf ch val).2.regs
        (H.MAX22190_FILTER_IN_REG ch)) = i ∧
    (∀ j, j < 8 → H.MAX22190_DELAY_MASK.testBit j = false →
      ((max22190_iio_write_filter_delay H regfile_driver L d buf ch val).2.regs
        (H.MAX22190_FILTER_IN_REG ch)).testBit j =
      (d.regs (H.MAX22190_FILTER_IN_REG ch)).testBit j) ∧
    (∀ r, r ≠ H.MAX22190_FILTER_IN_REG ch →
      (max22190_iio_write_filter_delay H regfile_driver L d buf ch val).2.regs r =
        d.regs r) ∧
    (max22190_iio_read_filter_delay H regfile_driver L
        (max22190_iio_write_filter_delay H regfile_driver L d buf ch val).2 buf' len ch).map
        (fun r => (r.1, r.2.1)) =
      some (L.iio_format_value buf' len ((max22190_delay_avail.getD i 0 : Nat) : Int)) := by
  obtain ⟨hget, hget', hint⟩ := delay_avail_get i hi
  have hw : max22190_iio_write_filter_delay H regfile_driver L d buf ch val =
      regfile_driver.max22190_reg_update d (H.MAX22190_FILTER_IN_REG ch)
        H.MAX22190_DELAY_MASK (no_os_field_prep H.MAX22190_DELAY_MASK i) :=
    max22190_iio_write_filter_delay_of_mem H regfile_driver L d buf ch val i _ hparse hget
  have hfield : no_os_field_get H.MAX22190_DELAY_MASK
      (masked_update_spec (d.regs (H.MAX22190_FILTER_IN_REG ch) % 256)
        H.MAX22190_DELAY_MASK (no_os_field_prep H.MAX22190_DELAY_MASK i)) = i := by
    rw [field_get_masked_update, hM]
    exact delay_field_round_trip k i hk hi
  rw [hw]
  refine ⟨rfl, ?_, ?_, ?_, ?_⟩
  · simp only [regfile_driver, if_true]
    exact hfield
  · intro j hj hbit
    simp only [regfile_driver, if_true]
    have h256 : (256 : Nat) = 2 ^ 8 := by norm_num
    rw [masked_update_spec_testBit, hbit, h256, Nat.testBit_mod_two_pow]
    simp [hj]
  · intro r hr
    simp only [regfile_driver, hr, if_false]
  · simp only [max22190_iio_read_filter_delay, regfile_driver, if_true, ne_eq,
      not_true_eq_false, if_false, masked_update_spec_mod, hfield, hget', hint,
      Option.map_some']

/-- Witness of C13: storing "400" on channel 2 of a register file holding `0xA8`
writes the index 2 into bits 2..0 (the register becomes `0xAA`), and the show
yields the text "400". -/
theorem filter_delay_round_trip_witness :
    ((0 : Nat) ≤ 5 ∧ max22190_h_example.MAX22190_DELAY_MASK = 7 <<< 0 ∧ 2 < 8 ∧
     iio_lib_decimal.iio_parse_value "400".data =
       some ((max22190_delay_avail.getD 2 0 : Nat) : Int)) ∧
    (max22190_iio_write_filter_delay max22190_h_example regfile_driver iio_lib_decimal
        regfile_example "400".data 2 0).2.regs 10 = 0xAA ∧
    (max22190_iio_read_filter_delay max22190_h_example regfile_driver iio_lib_decimal
        (max22190_iio_write_filter_delay max22190_h_example regfile_driver iio_lib_decimal
          regfile_example "400".data 2 0).2 [] 16 2).map (fun r => (r.1, r.2.1)) =
      some (3, "400".data) :=
  have h := filter_delay_round_trip max22190_h_example iio_lib_decimal regfile_example
    "400".data [] 16 2 0 2 0 (by decide) (by decide) (by decide) (by decide)
  ⟨by decide, by decide, h.2.2.2.2.trans (by decide)⟩

/-! ## C19: the filter bypass store passes the raw value to the update -/

/-- What `max22190_iio_write_filter` does on the register file for a parsed 0
or 1: the masked update of `MAX22190_FILTER_IN_REG(ch)` is made with the value
itself, not with the value moved to the position of `MAX22190_FBP_MASK`, so the
bypass field then holds `(v & MAX22190_FBP_MASK)` moved down to bit 0. -/
theorem max22190_iio_write_filter_field (H : max22190_h) (L : iio_lib) (d : regfile)
    (buf : List Char) (ch val : Nat) (v : Int) (hparse : L.iio_parse_value buf = some v)
    (hv : uint32_of_int32 v ≤ 1) :
    (max22190_iio_write_filter H regfile_driver L d buf ch val).1 = 0 ∧
    no_os_field_get H.MAX22190_FBP_MASK
      ((max22190_iio_write_filter H regfile_driver L d buf ch val).2.regs
        (H.MAX22190_FILTER_IN_REG ch)) =
      ((uint32_of_int32 v &&& H.MAX22190_FBP_MASK) % 256) >>>
        no_os_find_first_set_bit H.MAX22190_FBP_MASK := by
  have hnot : ¬ uint32_of_int32 v > 1 := by omega
  simp only [max22190_iio_write_filter, hparse, hnot, if_false, regfile_driver, if_true]
  exact ⟨trivial, field_get_masked_update _ _ _⟩

/-- What `max22190_iio_write_filter` does for a parsed value above 1: `-EINVAL`,
the device state as it was, whatever the driver functions are. -/
theorem max22190_iio_write_filter_range {σ : Type} (H : max22190_h)
    (D : max22190_driver σ) (L : iio_lib) (desc : σ) (buf : List Char) (ch val : Nat)
    (v : Int) (hparse : L.iio_parse_value buf = some v) (hv : 1 < uint32_of_int32 v) :
    max22190_iio_write_filter H D L desc buf ch val = (-EINVAL, desc) := by
  simp only [max22190_iio_write_filter, hparse, gt_iff_lt, hv, if_true]

/-- C19, the code at the failing input: on the register map with the bypass flag
in bit 3, storing "1" on channel 2 of a register file holding `0xA8` (bypass
bit set) returns 0 but leaves the register at `0xA0`, bypass bit clear: the
following show yields "0", not "1".  The sibling store of the delay field moves
its value into place with `no_os_field_prep`; storing "2" returns `-EINVAL`
without an exchange, as claimed. -/
theorem max22190_iio_write_filter_one_clears_bypass :
    iio_lib_decimal.iio_parse_value "1".data = some 1 ∧
    (max22190_iio_write_filter max22190_h_example regfile_driver iio_lib_decimal
        regfile_example "1".data 2 0).1 = 0 ∧
    (max22190_iio_write_filter max22190_h_example regfile_driver iio_lib_decimal
        regfile_example "1".data 2 0).2.regs 10 = 0xA0 ∧
    (max22190_iio_read_filter max22190_h_example regfile_driver iio_lib_decimal
        (max22190_iio_write_filter max22190_h_example regfile_driver iio_lib_decimal
          regfile_example "1".data 2 0).2 [] 16 2).2.1 = "0".data ∧
    (max22190_iio_write_filter max22190_h_example regfile_driver iio_lib_decimal
        regfile_example "2".data 2 0).1 = -EINVAL ∧
    (max22190_iio_write_filter max22190_h_example regfile_driver iio_lib_decimal
        regfile_example "2".data 2 0).2.exchanges = 0 := by
  decide

/-! ## C21: the delay table is indexed in bounds -/

theorem find_first_set_bit_seven_shift (k : Nat) (hk : k ≤ 29) :
    no_os_find_first_set_bit (7 <<< k) = k := by
  interval_cases k <;> decide

theorem field_get_three_bits (k val : Nat) (hk : k ≤ 29) :
    no_os_field_get (7 <<< k) val < 8 := by
  unfold no_os_field_get
  rw [find_first_set_bit_seven_shift k hk, Nat.shiftRight_eq_div_pow]
  have h : val &&& 7 <<< k ≤ 7 <<< k := Nat.and_le_right
  have e : 7 <<< k = 7 * 2 ^ k := Nat.shiftLeft_eq 7 k
  have hpos : 0 < 2 ^ k := Nat.two_pow_pos k
  have h8 : val &&& 7 <<< k < 8 * 2 ^ k := by omega
  exact (Nat.div_lt_iff_lt_mul hpos).mpr h8

theorem delay_avail_entry (i : Nat) (hi : i < 8) :
    ∃ v, max22190_delay_avail.get? i = some v ∧ v ∈ max22190_delay_avail ∧
      int32_of_uint32 v = ((v : Nat) : Int) := by
  interval_cases i <;> exact ⟨_, rfl, by decide, by decide⟩

/-- C21. With the delay field three bits wide (`MAX22190_DELAY_MASK = 7 << k`), for
every value the register read delivers the index
`no_os_field_get(MAX22190_DELAY_MASK, val)` is below 8, the length of
`max22190_delay_avail`: `max22190_iio_read_filter_delay` never indexes the table
out of bounds, it always returns, and after a successful read the value it hands
to the formatter is one of the eight table entries. -/
theorem max22190_iio_read_filter_delay_in_bounds {σ : Type}
    (H : max22190_h) (D : max22190_driver σ) (L : iio_lib) (desc : σ)
    (buf : List Char) (len ch k : Nat)
    (hk : k ≤ 29) (hM : H.MAX22190_DELAY_MASK = 7 <<< k) :
    (∀ val, no_os_field_get H.MAX22190_DELAY_MASK val < max22190_delay_avail.length) ∧
    (∃ r, max22190_iio_read_filter_delay H D L desc buf len ch = some r) ∧
    ((D.max22190_reg_read desc (H.MAX22190_FILTER_IN_REG ch)).1 = 0 →
      ∃ v, v ∈ max22190_delay_avail ∧
        max22190_iio_read_filter_delay H D L desc buf len ch =
          some ((L.iio_format_value buf len ((v : Nat) : Int)).1,
                (L.iio_format_value buf len ((v : Nat) : Int)).2,
                (D.max22190_reg_read desc (H.MAX22190_FILTER_IN_REG ch)).2.2)) := by
  have hidx : ∀ val, no_os_field_get H.MAX22190_DELAY_MASK val < 8 := by
    intro val; rw [hM]; exact field_get_three_bits k val hk
  refine ⟨fun val => hidx val, ?_, ?_⟩
  · unfold max22190_iio_read_filter_delay
    simp only []
    split_ifs with h
    · exact ⟨_, rfl⟩
    · obtain ⟨v, hv, _, _⟩ := delay_avail_entry _
        (hidx (D.max22190_reg_read desc (H.MAX22190_FILTER_IN_REG ch)).2.1)
      rw [hv]
      exact ⟨_, rfl⟩
  · intro h0
    obtain ⟨v, hv, hmem, hint⟩ := delay_avail_entry _
      (hidx (D.max22190_reg_read desc (H.MAX22190_FILTER_IN_REG ch)).2.1)
    refine ⟨v, hmem, ?_⟩
    unfold max22190_iio_read_filter_delay
    simp only [h0, ne_eq, not_true_eq_false, if_false, hv, hint]

/-- Witness of C21: on the register map with the delay field in bits 2..0, the
register byte `0xFF` gives the index 7 and the show yields the last table
entry, "20000". -/
theorem max22190_iio_read_filter_delay_in_bounds_witness :
    ((0 : Nat) ≤ 29 ∧ max22190_h_example.MAX22190_DELAY_MASK = 7 <<< 0) ∧
    no_os_field_get max22190_h_example.MAX22190_DELAY_MASK 0xFF <
      max22190_delay_avail.length ∧
    no_os_field_get max22190_h_example.MAX22190_DELAY_MASK 0xFF = 7 ∧
    (max22190_iio_read_filter_delay max22190_h_example regfile_driver iio_lib_decimal
        { regs := fun _ => 0xFF, exchanges := 0 } [] 16 2).map (fun r => (r.1, r.2.1)) =
      some (5, "20000".data) :=
  have h := max22190_iio_read_filter_delay_in_bounds max22190_h_example regfile_driver
    iio_lib_decimal { regs := fun _ => 0xFF, exchanges := 0 } [] 16 2 0
    (by decide) (by decide)
  ⟨by decide, h.1 0xFF, by decide, by decide⟩

/-- The bound of C21 rests on the width of the mask: with a four-bit delay
field the register byte `0x0F` gives the index 15 and the table access is out
of bounds. -/
theorem max22190_iio_read_filter_delay_wide_mask :
    no_os_field_get 0x0F 0x0F = 15 ∧
    max22190_iio_read_filter_delay { max22190_h_example with MAX22190_DELAY_MASK := 0x0F }
        regfile_driver iio_lib_decimal { regs := fun _ => 0x0F, exchanges := 0 } [] 16 2 =
      none := by
  constructor
  · decide
  · rfl
